import Mathlib

/-!
# Verification of the flowAI workflow compiler and execution engine

This file gives a shallow embedding of the flowAI backend services
(`app/services/compiler/compiler.py`, `app/services/compiler/langgraph_compiler.py`,
`app/services/executor/executor.py`, `app/services/executor/node_handlers.py`)
and proves or refutes the specification claims about them.

Conventions of the embedding:
* Python dictionaries holding workflow data are embedded as Lean structures /
  association lists; Python `None` becomes `Option.none` or `Value.none`.
* Functions that can raise Python exceptions are embedded as `Except String α`,
  the error string being `str(e)` of the exception.
* Side-effecting `print` debug calls in the source have no observable effect on
  the values the claims talk about and are not modelled.
* Literal braces and apostrophes occurring in generated program text are written
  with the escapes `\x7b`, `\x7d` and `\x27`.
-/

namespace FlowAI

/-- Embedding of the Python values that can appear in workflow state / node
configuration dictionaries. `float` is embedded as an exact rational. -/
inductive Value where
  | none : Value
  | bool : Bool → Value
  | int : Int → Value
  | float : Rat → Value
  | str : String → Value
  | list : List Value → Value
  | dict : List (String × Value) → Value

/-- A Python dict with string keys, e.g. the executor's `state["data"]`. -/
abbrev Data := List (String × Value)

/-- Model of `d.get(k)` on a Python dict: `None` when the key is absent. -/
def alookup (d : List (String × Value)) (k : String) : Option Value :=
  (d.find? (fun p => p.1 = k)).map Prod.snd

/-- Model of `d[k] = v` on a Python dict: overwrite in place (keeping the position of
the first insertion) or append. -/
def upsert (d : List (String × Value)) (k : String) (v : Value) :
    List (String × Value) :=
  match d with
  | [] => [(k, v)]
  | (k0, v0) :: t => if k0 = k then (k0, v) :: t else (k0, v0) :: upsert t k v

/-- String-valued association list upsert (used for the generated
`path_map` Python dict, whose keys and values are strings). -/
def upsertS (d : List (String × String)) (k v : String) :
    List (String × String) :=
  match d with
  | [] => [(k, v)]
  | (k0, v0) :: t => if k0 = k then (k0, v) :: t else (k0, v0) :: upsertS t k v

mutual

/-- Model of `str()` of an embedded Python value.  String rendering of floats is not
relied on by any claim and gets a best-effort rational rendering; containers
get a repr-like rendering without escape handling. -/
def pyStr : Value → String
  | .none => "None"
  | .bool true => "True"
  | .bool false => "False"
  | .int n => toString n
  | .float q => toString q
  | .str s => s
  | .list l => "[" ++ String.intercalate ", " (pyReprList l) ++ "]"
  | .dict d => "\x7b" ++ String.intercalate ", " (pyReprDict d) ++ "\x7d"

/-- Model of `repr()` of an embedded Python value (strings quoted). -/
def pyRepr : Value → String
  | .str s => "\x27" ++ s ++ "\x27"
  | .none => "None"
  | .bool true => "True"
  | .bool false => "False"
  | .int n => toString n
  | .float q => toString q
  | .list l => "[" ++ String.intercalate ", " (pyReprList l) ++ "]"
  | .dict d => "\x7b" ++ String.intercalate ", " (pyReprDict d) ++ "\x7d"

/-- Model of `repr` of each element of a Python list. -/
def pyReprList : List Value → List String
  | [] => []
  | v :: t => pyRepr v :: pyReprList t

/-- Model of `'key': repr(value)` rendering of each entry of a Python dict. -/
def pyReprDict : List (String × Value) → List String
  | [] => []
  | (k, v) :: t => ("\x27" ++ k ++ "\x27: " ++ pyRepr v) :: pyReprDict t

end

/-! ## Python primitive semantics -/

/-- The ASCII whitespace characters recognised by Python's `str.strip()` and
by `\s` in `re` patterns (the further Unicode whitespace is not exercised by
the workflows modelled here). -/
def pyWS (c : Char) : Bool :=
  c = ' ' || c = '\t' || c = '\n' || c = '\r' || c = '\x0b' || c = '\x0c'

/-- Drop characters satisfying `p` from both ends of a character list. -/
def stripEndsWhile (p : Char → Bool) (cs : List Char) : List Char :=
  ((cs.dropWhile p).reverse.dropWhile p).reverse

/-- Python `str.strip()` (whitespace from both ends). -/
def pyStripStr (s : String) : String := ⟨stripEndsWhile pyWS s.data⟩

/-- Python `str.strip('"\'')`: remove quote characters from both ends. -/
def pyStripQuotes (s : String) : String :=
  ⟨stripEndsWhile (fun c => c = '"' || c = '\x27') s.data⟩

/-- Model of `\w` of Python `re` on ASCII input: letters, digits and underscore. -/
def wordChar (c : Char) : Bool := c.isAlphanum || c = '_'

/-- Python `str.lower()` (ASCII case mapping; the Unicode cases are not
exercised by the modelled workflows). -/
def pyLower (s : String) : String := ⟨s.data.map Char.toLower⟩

/-- One digit-run with PEP 515 underscores: digits with single underscores
strictly between digits. Returns the digits with underscores removed. -/
def digitRunOk (cs : List Char) : Bool :=
  !cs.isEmpty && cs.head?.all Char.isDigit && cs.getLast?.all Char.isDigit &&
    cs.all (fun c => c.isDigit || c = '_') &&
    (cs.zip cs.tail).all (fun p => !(p.1 = '_' && p.2 = '_'))

/-- Numeric value of a digit list (underscores skipped). -/
def digitsVal (cs : List Char) : Nat :=
  cs.foldl (fun a c => if c.isDigit then a * 10 + (c.toNat - '0'.toNat) else a) 0

/-- Model of Python `int(s)` on a string: optional surrounding whitespace,
optional sign, then a digit run; `Option.none` models `ValueError`. -/
def pyInt? (s : String) : Option Int :=
  let cs := stripEndsWhile pyWS s.data
  let (sign, ds) :=
    match cs with
    | '-' :: t => ((-1 : Int), t)
    | '+' :: t => ((1 : Int), t)
    | t => ((1 : Int), t)
  if digitRunOk ds then some (sign * (digitsVal ds : Int)) else Option.none

/-- Model of Python `float(s)` restricted to plain decimal forms
`[sign] digits [. digits]` / `[sign] . digits`; exponent, `inf` and `nan`
forms are not modelled (no claim exercises them).  `Option.none` models
`ValueError`. -/
def pyFloat? (s : String) : Option Rat :=
  let cs := stripEndsWhile pyWS s.data
  let (sign, ds) :=
    match cs with
    | '-' :: t => ((-1 : Rat), t)
    | '+' :: t => ((1 : Rat), t)
    | t => ((1 : Rat), t)
  let ip := ds.takeWhile (· ≠ '.')
  let rest := ds.dropWhile (· ≠ '.')
  match rest with
  | [] => if digitRunOk ip then some (sign * (digitsVal ip : Rat)) else Option.none
  | _ :: fp =>
      if ip.isEmpty && fp.isEmpty then Option.none
      else if (ip.isEmpty || digitRunOk ip) && (fp.isEmpty || digitRunOk fp) then
        some (sign * ((digitsVal ip : Rat) +
          (digitsVal fp : Rat) / ((10 : Rat) ^ (fp.filter Char.isDigit).length)))
      else Option.none

/-- Python type name of an embedded value, as used in `TypeError` messages. -/
def typeName : Value → String
  | .none => "NoneType"
  | .bool _ => "bool"
  | .int _ => "int"
  | .float _ => "float"
  | .str _ => "str"
  | .list _ => "list"
  | .dict _ => "dict"

/-- Numeric view of a value: Python treats `bool` as a numeric type. -/
def toRat? : Value → Option Rat
  | .int n => some (n : Rat)
  | .float q => some q
  | .bool true => some 1
  | .bool false => some 0
  | _ => Option.none

/-- Python `==` as used by the condition evaluator, which always compares a
state value against a `literalConv` result: parsed literals are never
containers, so the container-versus-container cases of Python `==` are never
reached and are modelled as unequal.  Numeric types compare by value (with
`bool` as `0`/`1`), mixed non-numeric types are unequal; `==` never
raises. -/
def pyEq (a b : Value) : Bool :=
  match a, b with
  | .str s, .str t => s = t
  | .none, .none => true
  | .list _, _ => false
  | .dict _, _ => false
  | _, .list _ => false
  | _, .dict _ => false
  | a, b =>
      match toRat? a, toRat? b with
      | some x, some y => x = y
      | _, _ => false

/-- Python ordering comparison as used by the condition evaluator;
`Option.none` models a `TypeError` (unsupported operand types, e.g. `int` vs
`str` or `NoneType`).  Strings compare lexicographically by code point;
since parsed literals are never containers, the list-versus-list ordering of
Python is never reached and is modelled as `TypeError`. -/
def pyCmp (a b : Value) : Option Ordering :=
  match a, b with
  | .str s, .str t =>
      some (if s < t then .lt else if t < s then .gt else .eq)
  | a, b =>
      match toRat? a, toRat? b with
      | some x, some y => some (if x < y then .lt else if y < x then .gt else .eq)
      | _, _ => Option.none

/-- Model of `str(e)` of the `TypeError` raised by an unsupported Python comparison.
(For comparisons failing inside nested lists, CPython names the offending
element types; this model names the outer operand types, which no claim
depends on.) -/
def cmpTypeError (op : String) (a b : Value) : String :=
  "\x27" ++ op ++ "\x27 not supported between instances of \x27" ++
    typeName a ++ "\x27 and \x27" ++ typeName b ++ "\x27"

/-! ## `LangGraphCompiler._sanitize_identifier`
(`langgraph_compiler.py` lines 18–26) -/

/-- Model of `re.sub(r'[^a-zA-Z0-9_]', '_', name)` followed by prefixing `_` when the
result starts with a digit.  Note the source *replaces* invalid characters
with `_` (it does not remove them).  On the empty string the source raises
`IndexError` at `sanitized[0]`; every caller passes a non-empty string, and
this embedding returns `""` there. -/
def sanitizeIdentifier (name : String) : String :=
  let s : List Char := name.data.map (fun c => if wordChar c then c else '_')
  match s with
  | [] => ""
  | c :: _ => if c.isDigit then ⟨'_' :: s⟩ else ⟨s⟩

/-- Modelled from the spec's words (§4.2: "strip characters outside
`[A-Za-z0-9_]`, prefix with `_` if it starts with a digit"): the sanitizer the
spec describes, which *removes* invalid characters.  Used only to compare the
spec's description against `sanitizeIdentifier`. -/
def specStripSanitize (name : String) : String :=
  let s : List Char := name.data.filter wordChar
  match s with
  | [] => ""
  | c :: _ => if c.isDigit then ⟨'_' :: s⟩ else ⟨s⟩

/-! ## `{{variable}}` template substitution

`LLMNodeHandler._format_prompt` and `APINodeHandler._format_string`
(`node_handlers.py` lines 113–122 and 165–173) both run
`re.sub(r'\{\{(\w+)\}\}', replace_var, text)`.  The scanner below models that
pattern: at each position it matches `{{`, a maximal non-empty `\w+` run and
`}}`; on failure the scan advances one character, exactly as `re.sub` does
(the pattern's pieces are rigid, so no other backtracking can succeed). -/

/-- Core scanner for `re.sub(r'\{\{(\w+)\}\}', repl, ·)`. -/
def pySubDoubleBrace (repl : String → String) : List Char → List Char
  | [] => []
  | '{' :: '{' :: rest =>
      if (rest.takeWhile wordChar).isEmpty then
        '{' :: pySubDoubleBrace repl ('{' :: rest)
      else
        match h2 : rest.dropWhile wordChar with
        | '}' :: '}' :: tail =>
            (repl ⟨rest.takeWhile wordChar⟩).data ++ pySubDoubleBrace repl tail
        | _ => '{' :: pySubDoubleBrace repl ('{' :: rest)
  | c :: rest => c :: pySubDoubleBrace repl rest
termination_by cs => cs.length
decreasing_by
  · simp
  · have h : (List.dropWhile wordChar rest).length ≤ rest.length :=
      (List.dropWhile_suffix wordChar).length_le
    rw [h2] at h
    simp at h ⊢
    omega
  · simp
  · simp

/-- Model of `re.findall(r'\{\{(\w+)\}\}', text)`: the variable names of all
placeholder occurrences, in order (used by `_validate`'s prompt check). -/
def findDoubleBraceVars : List Char → List String
  | [] => []
  | '{' :: '{' :: rest =>
      if (rest.takeWhile wordChar).isEmpty then
        findDoubleBraceVars ('{' :: rest)
      else
        match h2 : rest.dropWhile wordChar with
        | '}' :: '}' :: tail =>
            (⟨rest.takeWhile wordChar⟩ : String) :: findDoubleBraceVars tail
        | _ => findDoubleBraceVars ('{' :: rest)
  | _ :: rest => findDoubleBraceVars rest
termination_by cs => cs.length
decreasing_by
  · simp
  · have h : (List.dropWhile wordChar rest).length ≤ rest.length :=
      (List.dropWhile_suffix wordChar).length_le
    rw [h2] at h
    simp at h ⊢
    omega
  · simp
  · simp

/-- Model of `state.get("data", {})` of the executor's working state.  The executor
always stores a dict under `"data"`; a non-dict value there would raise in
Python and is mapped to the empty dict here. -/
def stateData (state : Data) : List (String × Value) :=
  match alookup state "data" with
  | some (.dict d) => d
  | _ => []

/-- Model of `LLMNodeHandler._format_prompt` (`node_handlers.py` lines 113–122):
substitute `{{var}}` with `str(state["data"][var])`; for an absent variable
the replacement is the string `f"{{ {var_name} }}"`, whose doubled braces
render to *single* braces: the replacement text is `{ var }` with spaces
around the name. -/
def formatPromptHandler (prompt : String) (state : Data) : String :=
  ⟨pySubDoubleBrace
    (fun w =>
      match alookup (stateData state) w with
      | some v => pyStr v
      | Option.none => "\x7b " ++ w ++ " \x7d")
    prompt.data⟩

/-! ## `ConditionalNodeHandler._evaluate_simple_condition`
(`node_handlers.py` lines 200–243) -/

/-- The operator alternation of the pattern
`r'(\w+)\s*(==|!=|>|<|>=|<=)\s*(.+)'`, tried in the source's order: the first
alternative that is a prefix of the input wins.  In particular `>` is tried
before `>=` and `<` before `<=`, so the two-character alternatives can never
be selected. -/
def opAlternatives : List String := ["==", "!=", ">", "<", ">=", "<="]

/-- First operator alternative matching at the current position. -/
def matchOp (cs : List Char) : Option (String × List Char) :=
  opAlternatives.findSome? fun op =>
    if op.data.isPrefixOf cs then some (op, cs.drop op.length) else Option.none

/-- Model of `(.+)` of the pattern: at least one character, `.` not matching `\n`;
the capture extends greedily to the end of the line. -/
def dotTake (cs : List Char) : Option (List Char) :=
  match cs with
  | [] => Option.none
  | c :: _ => if c = '\n' then Option.none else some (cs.takeWhile (· ≠ '\n'))

/-- Backtracking of the greedy `\s*` before `(.+)`: try consuming `j`
whitespace characters for `j` from the maximum down to `0`. -/
def wsBacktrack (rest : List Char) : Nat → Option (List Char)
  | 0 => dotTake rest
  | j + 1 =>
      match dotTake (rest.drop (j + 1)) with
      | some v => some v
      | Option.none => wsBacktrack rest j

/-- Model of `\s*(.+)` after the operator. -/
def valuePart (rest : List Char) : Option (List Char) :=
  wsBacktrack rest (rest.takeWhile pyWS).length

/-- Model of `re.match(r'(\w+)\s*(==|!=|>|<|>=|<=)\s*(.+)', condition.strip())`,
returning the three captured groups.  Word characters can never begin an
operator and operator characters are never whitespace, so the maximal
`(\w+)` and `\s*` runs are the only candidates; and whenever `>=` (resp.
`<=`) could match, the earlier alternative `>` (resp. `<`) already yields a
full match, so trying the alternatives in order as prefixes is faithful. -/
def condParse (s : String) : Option (String × String × String) :=
  let cs := s.data
  let w := cs.takeWhile wordChar
  if w.isEmpty then Option.none
  else
    let sp := (cs.dropWhile wordChar).dropWhile pyWS
    match matchOp sp with
    | Option.none => Option.none
    | some (op, rest) =>
        match valuePart rest with
        | Option.none => Option.none
        | some v => some (⟨w⟩, op, ⟨v⟩)

/-- The literal-conversion `try` block: quoted strings are unquoted,
`true`/`false` (case-insensitive) become booleans, values containing `.`
are parsed as floats, the rest as ints; a `ValueError` from `float`/`int`
leaves the original string. -/
def literalConv (v : String) : Value :=
  if v.data.head?.any (fun c => c = '"' || c = '\x27') then .str (pyStripQuotes v)
  else if pyLower v = "true" then .bool true
  else if pyLower v = "false" then .bool false
  else if v.data.contains '.' then
    match pyFloat? v with
    | some q => .float q
    | Option.none => .str v
  else
    match pyInt? v with
    | some n => .int n
    | Option.none => .str v

/-- The `if/elif` chain over the captured operator applied to an ordering
result (only reached for `>`, `<`, `>=`, `<=`; the trailing `return False`
of the source is the catch-all). -/
def interpretOrd (op : String) (o : Ordering) : Bool :=
  if op = ">" then o = .gt
  else if op = "<" then o = .lt
  else if op = ">=" then o ≠ .lt
  else if op = "<=" then o ≠ .gt
  else false

/-- Model of `ConditionalNodeHandler._evaluate_simple_condition`: parse the condition
against the pattern (no match ⇒ `False`), convert the literal, fetch the
state variable (absent ⇒ `None`) and apply the captured operator.  An
unsupported comparison raises `TypeError`, which propagates out of the
handler. -/
def evalSimpleCondition (condition : String) (state : Data) :
    Except String Bool :=
  match condParse (pyStripStr condition) with
  | Option.none => .ok false
  | some (varName, op, valStr) =>
      let varValue := (alookup (stateData state) varName).getD .none
      let value := literalConv valStr
      if op = "==" then .ok (pyEq varValue value)
      else if op = "!=" then .ok (!pyEq varValue value)
      else
        match pyCmp varValue value with
        | Option.none => .error (cmpTypeError op varValue value)
        | some o => .ok (interpretOrd op o)

/-! ## Workflow graph data model

Embeddings of the dictionaries described by `app/schemas/node.py`
(`NodeConfig`, `Edge`, `ConditionalRoute`, `StateField`, `GraphData`).
Optional dictionary entries become `Option`/defaulted fields; the `.get`
defaults of the Python call sites are replicated at the use sites. -/

/-- One entry of `state_schema` (`StateField` in `schemas/node.py`). -/
structure StateFieldD where
  name : String
  type : String
  reducer : String := "none"
  customReducer : Option String := Option.none
  description : String := ""
deriving DecidableEq

/-- One entry of a conditional edge's `routes` list (`ConditionalRoute`);
the compiler reads each key with `.get(·, "")`. -/
structure RouteD where
  expression : String := ""
  output : String := ""
  target : String := ""
  label : String := ""
deriving DecidableEq

/-- The `data` dict of a conditional edge. -/
structure EdgeDataD where
  routes : List RouteD := []
  defaultTarget : Option String := Option.none
deriving DecidableEq

/-- An edge dictionary (`Edge` in `schemas/node.py`). -/
structure EdgeD where
  id : String
  source : String
  target : String
  type : Option String := Option.none
  data : Option EdgeDataD := Option.none
deriving DecidableEq

/-- The `data` (config) dict of a node, with the keys the compiler and the
executor handlers read.  A missing key is `Option.none`. -/
structure NodeDataD where
  output_key : Option String := Option.none
  prompt : Option String := Option.none
  provider : Option String := Option.none
  model : Option String := Option.none
  message : Option String := Option.none
  condition : Option String := Option.none
  condition_type : Option String := Option.none
  url : Option String := Option.none
  method : Option String := Option.none
  dataset_id : Option String := Option.none
  format : Option String := Option.none
deriving DecidableEq

/-- A node dictionary (`NodeConfig` in `schemas/node.py`); `position` is
irrelevant to compilation and execution and is omitted. -/
structure NodeD where
  id : String
  type : String
  data : NodeDataD := {}
deriving DecidableEq

/-- A workflow graph (`GraphData` plus the workflow `name`), the input of
both compilers and of the executor. -/
structure GraphD where
  name : String := "Untitled Workflow"
  state_schema : List StateFieldD := []
  nodes : List NodeD := []
  edges : List EdgeD := []
deriving DecidableEq

/-! ## `LangGraphCompiler`: state-schema resolution
(`langgraph_compiler.py` lines 42–111) -/

/-- The backward-compatibility default schema substituted when
`state_schema` is empty (lines 52–65). -/
def defaultStateSchema : List StateFieldD :=
  [{ name := "messages", type := "list", reducer := "add_messages",
     description := "Conversation history" },
   { name := "data", type := "dict", reducer := "none",
     description := "General purpose data storage" }]

/-- The type-specific default output key of a node without an explicit
`output_key` (lines 91–98): `"{id}_df"` for `dataset`, `"{id}_output"` for
`llm`, nothing for other types. -/
def defaultKeyFor (n : NodeD) : Option String :=
  if n.type = "dataset" then some (n.id ++ "_df")
  else if n.type = "llm" then some (n.id ++ "_output")
  else Option.none

/-- The state field appended for an inferred output key
(lines 82–87 resp. 105–110). -/
def mkInferredField (k nodeId : String) (isDefault : Bool) : StateFieldD :=
  { name := k, type := "Any", reducer := "none",
    description := (if isDefault then "Default output from node "
                    else "Output from node ") ++ nodeId }

/-- One iteration of the inference loop over `nodes` (lines 71–111).  The
accumulator is the pair of the growing `state_schema` list and the
`existing_fields` set (a membership-only set, embedded as a list). -/
def inferStep (acc : List StateFieldD × List String) (n : NodeD) :
    List StateFieldD × List String :=
  if n.data.output_key.getD "" ≠ "" then
    if sanitizeIdentifier (n.data.output_key.getD "") ∈ acc.2 then acc
    else
      (acc.1 ++ [mkInferredField (sanitizeIdentifier (n.data.output_key.getD "")) n.id false],
       sanitizeIdentifier (n.data.output_key.getD "") :: acc.2)
  else
    match defaultKeyFor n with
    | Option.none => acc
    | some dk =>
        if sanitizeIdentifier dk ∈ acc.2 then acc
        else
          (acc.1 ++ [mkInferredField (sanitizeIdentifier dk) n.id true],
           sanitizeIdentifier dk :: acc.2)

/-- The full inference loop: fold `inferStep` over the nodes starting from
the declared schema and its field-name set. -/
def inferSchema (schema : List StateFieldD) (nodes : List NodeD) :
    List StateFieldD :=
  (nodes.foldl inferStep (schema, schema.map (·.name))).1

/-- State-schema resolution as performed inside `compile`: substitute the
default schema when the declared one is empty, then run inference. -/
def resolveStateSchema (declared : List StateFieldD) (nodes : List NodeD) :
    List StateFieldD :=
  inferSchema (if declared.isEmpty then defaultStateSchema else declared) nodes

/-- The sanitized field name that inference would contribute for a node
(used to state claims about inference): the sanitized explicit `output_key`
when it is non-blank, else the sanitized type-specific default. -/
def contribKey? (n : NodeD) : Option String :=
  if n.data.output_key.getD "" ≠ "" then
    some (sanitizeIdentifier (n.data.output_key.getD ""))
  else (defaultKeyFor n).map sanitizeIdentifier

/-! ## `LangGraphCompiler._validate` (lines 141–194) -/

/-- The accumulated fatal error strings, in source order. -/
def validationErrors (state_schema : List StateFieldD) (nodes : List NodeD)
    (edges : List EdgeD) : List String :=
  (if !state_schema.isEmpty ∧ ¬(state_schema.map (·.name)).Nodup then
      ["Duplicate field names in state schema"] else []) ++
  (if nodes.isEmpty then ["No nodes defined"] else []) ++
  (if !nodes.isEmpty ∧ ¬(nodes.map (·.id)).Nodup then
      ["Duplicate node IDs"] else []) ++
  (if !nodes.isEmpty ∧ !edges.isEmpty then
    (edges.map fun e =>
      (if (nodes.map (·.id)).contains e.source then []
       else ["Edge source \x27" ++ e.source ++ "\x27 not found"]) ++
      (if (nodes.map (·.id)).contains e.target then []
       else ["Edge target \x27" ++ e.target ++ "\x27 not found"])).flatten
   else [])

/-- The non-fatal warnings about `{{var}}` prompt references to unknown
state fields (lines 174–189; the message's `'{{{{var}}}}'` is an f-string
quirk rendering the literal text `{{var}}`). -/
def validationWarnings (state_schema : List StateFieldD)
    (nodes : List NodeD) : List String :=
  if !state_schema.isEmpty ∧ !nodes.isEmpty then
    (nodes.map fun n =>
      if n.type = "llm" ∧ n.data.prompt.getD "" ≠ "" then
        ((findDoubleBraceVars (n.data.prompt.getD "").data).filter
            (fun v => ¬ (state_schema.map (·.name)).contains v)).map
          (fun v =>
            "Node \x27" ++ n.id ++
              "\x27: Prompt references \x27\x7b\x7bvar\x7d\x7d\x27 but \x27" ++
              v ++ "\x27 is not in state schema")
      else []).flatten
  else []

/-- Model of `_validate`: raise `ValueError` listing the fatal errors when there are
any, otherwise return the warnings (which `compile` only prints). -/
def validateL (state_schema : List StateFieldD) (nodes : List NodeD)
    (edges : List EdgeD) : Except String (List String) :=
  match validationErrors state_schema nodes edges with
  | [] => .ok (validationWarnings state_schema nodes)
  | errs => .error ("Validation errors:\n" ++ String.intercalate "\n" errs)

/-! ## `LangGraphCompiler` helper tables (lines 268–336) -/

/-- Model of `_map_type`: FlowAI field type to Python type annotation. -/
def mapType (t : String) : String :=
  if t = "str" then "str"
  else if t = "int" then "int"
  else if t = "float" then "float"
  else if t = "bool" then "bool"
  else if t = "list" then "list"
  else if t = "dict" then "dict"
  else if t = "Any" then "Any"
  else "Any"

/-- The alias table of `_normalize_provider`. -/
def providerMap : List (String × String) :=
  [("openai", "openai"), ("open ai", "openai"), ("gpt", "openai"),
   ("anthropic", "anthropic"), ("claude", "anthropic"),
   ("google", "google"), ("gemini", "google"), ("palm", "google")]

/-- Lookup in a string-to-string table. -/
def lookupS (d : List (String × String)) (k : String) : Option String :=
  (d.find? (fun p => p.1 = k)).map Prod.snd

/-- Model of `_normalize_provider`: lowercase, strip, table lookup with fallback
`"openai"` for anything unrecognised. -/
def normalizeProvider (provider : String) : String :=
  (lookupS providerMap (pyStripStr (pyLower provider))).getD "openai"

/-- Model of `_normalize_model`: lowercase, strip and per-provider alias tables. -/
def normalizeModel (model provider : String) : String :=
  let m := pyStripStr (pyLower model)
  if provider = "openai" then
    (lookupS [("gpt-4", "gpt-4"), ("gpt4", "gpt-4"),
      ("gpt-4-turbo", "gpt-4-turbo"), ("gpt-3.5-turbo", "gpt-3.5-turbo"),
      ("gpt-3.5", "gpt-3.5-turbo"), ("gpt3.5", "gpt-3.5-turbo")] m).getD m
  else if provider = "anthropic" then
    (lookupS [("claude-3-opus", "claude-3-opus-20240229"),
      ("claude-opus", "claude-3-opus-20240229"),
      ("claude-3-sonnet", "claude-3-sonnet-20240229"),
      ("claude-sonnet", "claude-3-sonnet-20240229"),
      ("claude-3-haiku", "claude-3-haiku-20240307"),
      ("claude-haiku", "claude-3-haiku-20240307")] m).getD m
  else if provider = "google" then
    (lookupS [("gemini-pro", "gemini-pro"), ("gemini", "gemini-pro"),
      ("gemini-1.5-pro", "gemini-1.5-pro")] m).getD m
  else m

/-! ## `LangGraphCompiler`: code generation (lines 196–941)

The node generators below reproduce the *rendered* text of the source's
f-strings: doubled braces `{{`/`}}` of the f-string render to single braces,
written here as `\x7b`/`\x7d`.  Lines consisting only of spaces are
reproduced as such. -/

/-- The `print(json.dumps({...}), file=sys.stderr, flush=True)` lifecycle
log block that each node generator emits (with the given indentation, event
type and node type; `NODE_ERROR` blocks add an `"error": str(e)` line). -/
def logBlock (ind event nodeId nodeType : String) (withErr : Bool) :
    List String :=
  [ind ++ "print(json.dumps(\x7b",
   ind ++ "    \"type\": \"" ++ event ++ "\",",
   ind ++ "    \"node_id\": \"" ++ nodeId ++ "\",",
   ind ++ "    \"node_type\": \"" ++ nodeType ++ "\","] ++
  (if withErr then [ind ++ "    \"error\": str(e),"] else []) ++
  [ind ++ "    \"timestamp\": datetime.utcnow().isoformat()",
   ind ++ "\x7d), file=sys.stderr, flush=True)"]

/-- Model of `_generate_imports` (lines 196–241). -/
def genImports (schema : List StateFieldD) (nodes : List NodeD) : String :=
  String.intercalate "\n" (
    ["from typing import TypedDict, Annotated, Any",
     "from langgraph.graph import StateGraph, START, END"] ++
    (if schema.any (fun f => f.reducer = "add_messages") then
      ["from langgraph.graph.message import add_messages"] else []) ++
    (if schema.any (fun f => f.reducer = "add") then
      ["from operator import add"] else []) ++
    (if nodes.any (fun n => n.type = "llm") then
      ["from langchain_openai import ChatOpenAI",
       "from langchain_anthropic import ChatAnthropic",
       "from langchain_google_genai import ChatGoogleGenerativeAI",
       "from langchain_core.messages import HumanMessage, AIMessage",
       "import os"] else []) ++
    (if nodes.any (fun n => n.type = "api") then ["import httpx"] else []) ++
    (if nodes.any (fun n => n.type = "dataset") then
      ["import pandas as pd", "import io"] else []))

/-- Model of `_generate_state_class` (lines 243–266).  The `custom`-reducer branch
falls back to the plain annotation, like the source's MVP comment says. -/
def genStateClass (schema : List StateFieldD) : String :=
  String.intercalate "\n" (
    ["class WorkflowState(TypedDict):",
     "    \"\"\"Generated state schema for the workflow\"\"\""] ++
    schema.map (fun f =>
      if f.reducer = "add" then
        "    " ++ f.name ++ ": Annotated[" ++ mapType f.type ++ ", add]"
      else if f.reducer = "add_messages" then
        "    " ++ f.name ++ ": Annotated[list, add_messages]"
      else
        "    " ++ f.name ++ ": " ++ mapType f.type))

/-- Model of `_generate_llm_node` (lines 362–460). -/
def genLLMNode (n : NodeD) : String :=
  let nodeId := n.id
  let provider := normalizeProvider (n.data.provider.getD "openai")
  let model := normalizeModel (n.data.model.getD "gpt-4") provider
  let prompt := n.data.prompt.getD ""
  let ok0 := n.data.output_key.getD "llm_output"
  let outputKey :=
    sanitizeIdentifier (if ok0 = "" ∨ pyStripStr ok0 = "" then nodeId ++ "_output" else ok0)
  String.intercalate "\n" (
    ["def " ++ nodeId ++ "(state: WorkflowState) -> dict:",
     "    \"\"\"",
     "    LLM Node: " ++ nodeId,
     "    Provider: " ++ provider,
     "    Model: " ++ model,
     "    \"\"\"",
     "    import sys",
     "    import json",
     "    from datetime import datetime",
     "    ",
     "    # Log node start"] ++
    logBlock "    " "NODE_START" nodeId "llm" false ++
    ["    ",
     "    try:",
     "        # Initialize LLM",
     "        if \"" ++ provider ++ "\" == \"openai\":",
     "            llm = ChatOpenAI(",
     "                model=\"" ++ model ++ "\",",
     "                api_key=os.getenv(\"OPENAI_API_KEY\")",
     "            )",
     "        elif \"" ++ provider ++ "\" == \"anthropic\":",
     "            llm = ChatAnthropic(",
     "                model=\"" ++ model ++ "\",",
     "                api_key=os.getenv(\"ANTHROPIC_API_KEY\")",
     "            )",
     "        elif \"" ++ provider ++ "\" == \"google\":",
     "            llm = ChatGoogleGenerativeAI(",
     "                model=\"" ++ model ++ "\",",
     "                api_key=os.getenv(\"GOOGLE_API_KEY\")",
     "            )",
     "        else:",
     "            raise ValueError(f\"Unknown provider: " ++ provider ++ "\")",
     "",
     "        # Format prompt with state variables",
     "        prompt_template = \"\"\"" ++ prompt ++ "\"\"\"",
     "",
     "        # Simple variable substitution (\x7bvar\x7d -> state[var])",
     "        import re",
     "        def replace_var(match):",
     "            var_name = match.group(1)",
     "            return str(state.get(var_name, f\"\x7b\x7b\x7b\x7b\x7bvar_name\x7d\x7d\x7d\x7d\x7d\"))",
     "",
     "        formatted_prompt = re.sub(r\x27\\\x7b\\\x7b(\\w+)\\\x7d\\\x7d\x27, replace_var, prompt_template)",
     "",
     "        # Call LLM",
     "        message = HumanMessage(content=formatted_prompt)",
     "        response = llm.invoke([message])",
     "        ",
     "        # Log node completion"] ++
    logBlock "        " "NODE_COMPLETE" nodeId "llm" false ++
    ["",
     "        # Return state update",
     "        return \x7b",
     "            \"" ++ outputKey ++ "\": response.content,",
     "            \"messages\": [AIMessage(content=response.content)] if \"messages\" in state else []",
     "        \x7d",
     "        ",
     "    except Exception as e:",
     "        # Log node error"] ++
    logBlock "        " "NODE_ERROR" nodeId "llm" true ++
    ["        raise"])

/-- Model of `_generate_api_node` (lines 462–533).  Its `output_key` is sanitized
only when truthy (there is no fallback to a node-specific default here). -/
def genAPINode (n : NodeD) : String :=
  let nodeId := n.id
  let url := n.data.url.getD ""
  let method := n.data.method.getD "GET"
  let ok0 := n.data.output_key.getD "api_response"
  let outputKey := if ok0 ≠ "" then sanitizeIdentifier ok0 else ok0
  String.intercalate "\n" (
    ["def " ++ nodeId ++ "(state: WorkflowState) -> dict:",
     "    \"\"\"API Node: " ++ nodeId ++ "\"\"\"",
     "    import sys",
     "    import json",
     "    from datetime import datetime",
     "    ",
     "    # Log node start"] ++
    logBlock "    " "NODE_START" nodeId "api" false ++
    ["    ",
     "    try:",
     "        # Format URL with state variables",
     "        import re",
     "        url_template = \"" ++ url ++ "\"",
     "",
     "        def replace_var(match):",
     "            var_name = match.group(1)",
     "            return str(state.get(var_name, f\"\x7b\x7b\x7b\x7b\x7bvar_name\x7d\x7d\x7d\x7d\x7d\"))",
     "",
     "        formatted_url = re.sub(r\x27\\\x7b\\\x7b(\\w+)\\\x7d\\\x7d\x27, replace_var, url_template)",
     "",
     "        # Make API call",
     "        with httpx.Client() as client:",
     "            if \"" ++ method ++ "\" == \"GET\":",
     "                response = client.get(formatted_url)",
     "            elif \"" ++ method ++ "\" == \"POST\":",
     "                response = client.post(formatted_url, json=\x7b\x7d)",
     "            else:",
     "                raise ValueError(f\"Unsupported method: " ++ method ++ "\")",
     "",
     "            response.raise_for_status()",
     "            ",
     "            result = \x7b",
     "                \"" ++ outputKey ++ "\": response.json() if response.headers.get(\"content-type\", \"\").startswith(\"application/json\") else response.text",
     "            \x7d",
     "            ",
     "            # Log node completion"] ++
    logBlock "            " "NODE_COMPLETE" nodeId "api" false ++
    ["            ",
     "            return result",
     "            ",
     "    except Exception as e:",
     "        # Log node error"] ++
    logBlock "        " "NODE_ERROR" nodeId "api" true ++
    ["        raise"])

/-- Model of `_generate_trigger_node` (lines 535–596): a pass-through function when
the configured `message` is blank, otherwise a seeded `messages` update. -/
def genTriggerNode (n : NodeD) : String :=
  let nodeId := n.id
  let message := n.data.message.getD ""
  if message = "" ∨ pyStripStr message = "" then
    String.intercalate "\n" (
      ["def " ++ nodeId ++ "(state: WorkflowState) -> dict:",
       "    \"\"\"Trigger Node: " ++ nodeId ++ "\"\"\"",
       "    import sys",
       "    import json",
       "    from datetime import datetime",
       "    ",
       "    # Log node start"] ++
      logBlock "    " "NODE_START" nodeId "trigger" false ++
      ["    ",
       "    # Log node completion"] ++
      logBlock "    " "NODE_COMPLETE" nodeId "trigger" false ++
      ["    ",
       "    # Entry point - pass through initial state",
       "    return state"])
  else
    String.intercalate "\n" (
      ["def " ++ nodeId ++ "(state: WorkflowState) -> dict:",
       "    \"\"\"Trigger Node: " ++ nodeId ++ "\"\"\"",
       "    import sys",
       "    import json",
       "    from datetime import datetime",
       "    ",
       "    # Log node start"] ++
      logBlock "    " "NODE_START" nodeId "trigger" false ++
      ["    ",
       "    # Initialize workflow with message",
       "    result = \x7b\x7d",
       "",
       "    if \"messages\" in state:",
       "        result[\"messages\"] = [HumanMessage(content=\"" ++ message ++ "\")]",
       "    ",
       "    # Log node completion"] ++
      logBlock "    " "NODE_COMPLETE" nodeId "trigger" false ++
      ["    ",
       "    return result"])

/-- Model of `_generate_output_node` (lines 598–625). -/
def genOutputNode (n : NodeD) : String :=
  let nodeId := n.id
  String.intercalate "\n" (
    ["def " ++ nodeId ++ "(state: WorkflowState) -> dict:",
     "    \"\"\"Output Node: " ++ nodeId ++ "\"\"\"",
     "    import sys",
     "    import json",
     "    from datetime import datetime",
     "    ",
     "    # Log node start"] ++
    logBlock "    " "NODE_START" nodeId "output" false ++
    ["    ",
     "    # Log node completion"] ++
    logBlock "    " "NODE_COMPLETE" nodeId "output" false ++
    ["    ",
     "    # Final output node - just pass through state",
     "    return \x7b\x7d"])

/-- Model of `_generate_conditional_node` (lines 627–659): the generated function
always computes `result = False` (a source TODO) and writes it to
`condition_result`. -/
def genConditionalNode (n : NodeD) : String :=
  let nodeId := n.id
  let condition := n.data.condition.getD ""
  String.intercalate "\n" (
    ["def " ++ nodeId ++ "(state: WorkflowState) -> dict:",
     "    \"\"\"Conditional Node: " ++ nodeId ++ "\"\"\"",
     "    import sys",
     "    import json",
     "    from datetime import datetime",
     "    ",
     "    # Log node start"] ++
    logBlock "    " "NODE_START" nodeId "conditional" false ++
    ["    ",
     "    # Evaluate condition: " ++ condition,
     "    # TODO: Implement condition evaluation",
     "    result = False",
     "    ",
     "    # Log node completion"] ++
    logBlock "    " "NODE_COMPLETE" nodeId "conditional" false ++
    ["    ",
     "    return \x7b\"condition_result\": result\x7d"])

/-- Model of `_generate_dataset_node` (lines 661–733). -/
def genDatasetNode (n : NodeD) : String :=
  let nodeId := n.id
  let datasetId := n.data.dataset_id.getD ""
  let ok0 := n.data.output_key.getD "dataset_df"
  let outputKey :=
    sanitizeIdentifier (if ok0 = "" ∨ pyStripStr ok0 = "" then nodeId ++ "_df" else ok0)
  let filePath := "/home/user/datasets/" ++ datasetId ++ ".csv"
  String.intercalate "\n" (
    ["def " ++ nodeId ++ "(state: WorkflowState) -> dict:",
     "    \"\"\"Dataset Node: " ++ nodeId ++ "\"\"\"",
     "    import sys",
     "    import json",
     "    import pandas as pd",
     "    from datetime import datetime",
     "    import os",
     "    ",
     "    # Log node start"] ++
    logBlock "    " "NODE_START" nodeId "dataset" false ++
    ["    ",
     "    try:",
     "        # Check if file exists",
     "        file_path = \"" ++ filePath ++ "\"",
     "        if not os.path.exists(file_path):",
     "            raise FileNotFoundError(f\"Dataset file not found at \x7bfile_path\x7d\")",
     "",
     "        # Read dataset using pandas",
     "        # Try reading as CSV first",
     "        try:",
     "            df = pd.read_csv(file_path)",
     "        except:",
     "            # Fallback to JSON if CSV fails",
     "            df = pd.read_json(file_path)",
     "            ",
     "        # Convert to list of dicts for JSON serialization/state storage",
     "        # This makes it compatible with LLM prompts and other nodes",
     "        data = df.to_dict(orient=\"records\")",
     "        ",
     "        # Log node completion"] ++
    logBlock "        " "NODE_COMPLETE" nodeId "dataset" false ++
    ["        ",
     "        return \x7b",
     "            \"" ++ outputKey ++ "\": data",
     "        \x7d",
     "        ",
     "    except Exception as e:",
     "        # Log node error"] ++
    logBlock "        " "NODE_ERROR" nodeId "dataset" true ++
    ["        raise"])

/-- Model of `_generate_generic_node` (lines 735–743): the passthrough stub emitted
for unknown node types; it returns the empty partial-state update. -/
def genGenericNode (n : NodeD) : String :=
  String.intercalate "\n"
    ["def " ++ n.id ++ "(state: WorkflowState) -> dict:",
     "    \"\"\"Node: " ++ n.id ++ " (type: " ++ n.type ++ ")\"\"\"",
     "    # TODO: Implement " ++ n.type ++ " node logic",
     "    return \x7b\x7d"]

/-- Runtime behaviour of the function text emitted by
`_generate_generic_node`: its body is `return {}`, the empty partial-state
update, so it performs no state mutation whatever the state is. -/
def genericNodeSem (_state : Data) : Except String Data := .ok []

/-- Model of `_generate_node_functions` (lines 338–360): dispatch on node type,
unknown types falling to the generic passthrough generator. -/
def genNodeFunction (n : NodeD) : String :=
  if n.type = "llm" then genLLMNode n
  else if n.type = "api" then genAPINode n
  else if n.type = "trigger" then genTriggerNode n
  else if n.type = "output" then genOutputNode n
  else if n.type = "conditional" then genConditionalNode n
  else if n.type = "dataset" then genDatasetNode n
  else genGenericNode n

/-- Model of `_generate_node_functions`: all node functions joined by blank lines. -/
def genNodeFunctions (nodes : List NodeD) : String :=
  String.intercalate "\n\n" (nodes.map genNodeFunction)

/-! ## `_generate_routing_functions` and `_generate_graph_construction`
(lines 745–941) -/

/-- Iteration order of a Python dict built by grouping: each key in order of
its first occurrence. -/
def firstOccurrences : List String → List String
  | [] => []
  | x :: xs => x :: firstOccurrences (xs.filter (fun y => y ≠ x))
termination_by l => l.length
decreasing_by
  have h := List.length_filter_le (fun y => y ≠ x) xs
  simp at h ⊢
  omega

/-- The `if/elif` chain of one routing function (lines 786–798): routes with
a blank expression or output are skipped, and the `if`/`elif` choice follows
the route's *index*, so a skipped first route makes the chain start with
`elif` (reproduced faithfully). -/
def routeChainLines (routes : List RouteD) : List String :=
  (routes.enum.map (fun p =>
    if p.2.expression = "" ∨ p.2.output = "" then []
    else
      [(if p.1 = 0 then "    if " else "    elif ") ++ p.2.expression ++ ":",
       "        return \"" ++ p.2.output ++ "\""])).flatten

/-- Model of `_generate_routing_functions` (lines 745–813): one `route_from_{source}`
function per source that has conditional edges, built from the first
conditional edge that carries a non-empty route list (`continue`/`break` in
the source loop). -/
def genRoutingFunctions (edges : List EdgeD) : String :=
  String.intercalate "\n\n" (
    (firstOccurrences (edges.map (fun e => e.source))).filterMap (fun s =>
      let conditionalEdges :=
        (edges.filter (fun e => e.source = s)).filter
          (fun e => e.type = some "conditional")
      if conditionalEdges.isEmpty then Option.none
      else some (String.intercalate "\n" (
        ["def route_from_" ++ s ++ "(state: WorkflowState) -> str:",
         "    \"\"\"",
         "    Routing logic from " ++ s,
         "    Evaluates conditions and returns the branch to take",
         "    \"\"\""] ++
        (match conditionalEdges.findSome? (fun e =>
            let d := e.data.getD {}
            if d.routes.isEmpty then Option.none else some d) with
         | Option.none => []
         | some d =>
             routeChainLines d.routes ++
             (if d.defaultTarget.getD "" ≠ "" then
               ["    else:",
                "        return \"default\""]
              else
               ["    else:",
                "        raise ValueError(\"No routing condition matched and no default route specified\")"]))))))

/-- The `path_map` dict of `add_conditional_edges` (lines 896–904): routes
with truthy output and target, insertion-ordered with in-place overwrite,
plus the `"default"` entry when a default target exists. -/
def buildPathMap (routes : List RouteD) (defaultTarget : Option String) :
    List (String × String) :=
  let m := routes.foldl
    (fun acc r =>
      if r.output ≠ "" ∧ r.target ≠ "" then upsertS acc r.output r.target
      else acc) []
  if defaultTarget.getD "" ≠ "" then upsertS m "default" (defaultTarget.getD "")
  else m

/-- Python `repr` of the string-to-string `path_map` dict, as interpolated
into the generated code by `f'    {path_map}'`. -/
def pathMapRepr (m : List (String × String)) : String :=
  "\x7b" ++
    String.intercalate ", "
      (m.map (fun p => "\x27" ++ p.1 ++ "\x27: \x27" ++ p.2 ++ "\x27")) ++
  "\x7d"

/-- Model of `_generate_graph_construction` (lines 815–941).  The debug prints and
the `None`-edge filter have no effect here (edges are embedded as present
dictionaries). -/
def genGraphConstruction (nodes : List NodeD) (edges : List EdgeD) : String :=
  String.intercalate "\n" (
    ["# Create graph",
     "workflow = StateGraph(WorkflowState)",
     "",
     "# Add nodes"] ++
    nodes.map (fun n => "workflow.add_node(\"" ++ n.id ++ "\", " ++ n.id ++ ")") ++
    ["", "# Add edges"] ++
    (match (nodes.filter (fun n => n.type = "trigger")).head? with
     | some t => ["workflow.add_edge(START, \"" ++ t.id ++ "\")"]
     | Option.none => []) ++
    ((firstOccurrences (edges.map (fun e => e.source))).map (fun s =>
      let group := edges.filter (fun e => e.source = s)
      match group.filter (fun e => e.type = some "conditional") with
      | [] =>
          group.map (fun e => "workflow.add_edge(\"" ++ s ++ "\", \"" ++ e.target ++ "\")")
      | ce :: _ =>
          let d := ce.data.getD {}
          if d.routes.isEmpty then []
          else
            ["",
             "# Conditional routing from " ++ s,
             "workflow.add_conditional_edges(",
             "    \"" ++ s ++ "\",",
             "    route_from_" ++ s ++ ",",
             "    " ++ pathMapRepr (buildPathMap d.routes d.defaultTarget),
             ")"])).flatten ++
    (nodes.filter (fun n => n.type = "output")).map
      (fun n => "workflow.add_edge(\"" ++ n.id ++ "\", END)") ++
    ["", "# Compile graph", "app = workflow.compile()"])

/-! ## The Jinja2 template (`_load_template`, lines 943–1031)

Rendered by splicing the generated components; the `{% if %}` block tag
lines render to nothing while their surrounding newlines remain, which the
line lists below reproduce. -/

/-- The 76-character section banner line of the output template. -/
def sectionBanner : String := "# " ++ ⟨List.replicate 76 '='⟩

/-- The 35-character underline of the template's title. -/
def titleRule : String := ⟨List.replicate 35 '='⟩

/-- Render of the compiler's output template. -/
def renderTemplate (workflowName : String) (usingDefault : Bool)
    (imports stateClass nodeFunctions routingFunctions graphConstruction :
      String) : String :=
  let underscored := workflowName.replace " " "_"
  String.intercalate "\n" (
    ["\"\"\"",
     "Auto-generated LangGraph Workflow",
     titleRule,
     "Workflow: " ++ workflowName,
     "Generated by: FlowAI (https://github.com/yourusername/flowai)",
     "",
     "DESCRIPTION:",
     "    This file contains a complete, executable LangGraph workflow.",
     "    It can be run directly with Python or deployed to LangGraph Platform.",
     "",
     "USAGE:",
     "    # Run locally:",
     "    python " ++ underscored ++ "_langgraph.py",
     "",
     "    # Deploy to LangGraph Platform:",
     "    langchain app add " ++ underscored ++ "_langgraph.py",
     "",
     "REQUIREMENTS:",
     "    pip install langgraph langchain-openai langchain-anthropic langchain-google-genai",
     "",
     "ENVIRONMENT VARIABLES:",
     "    OPENAI_API_KEY      - Required for OpenAI models",
     "    ANTHROPIC_API_KEY   - Required for Anthropic/Claude models",
     "    GOOGLE_API_KEY      - Required for Google/Gemini models",
     "\"\"\"",
     "",
     imports,
     "",
     sectionBanner,
     "# STATE DEFINITION",
     sectionBanner,
     "# The state defines what data flows through your workflow.",
     "# Each node can read from and write to the state.",
     "# Reducers control how updates are merged (replace, add, add_messages, etc.)"] ++
    (if usingDefault then
      ["",
       "#",
       "# ⚠️  NOTE: This workflow uses a default state schema.",
       "# To customize the state, open FlowAI and click \"State Schema\" to add your fields."]
     else []) ++
    ["",
     "",
     stateClass,
     "",
     sectionBanner,
     "# NODE DEFINITIONS",
     sectionBanner,
     "# Each function below represents a node in your workflow.",
     "# Nodes receive the current state and return updates to merge into state.",
     "",
     nodeFunctions,
     "",
     routingFunctions,
     "",
     sectionBanner,
     "# GRAPH CONSTRUCTION",
     sectionBanner,
     "# This section builds the LangGraph StateGraph and defines the execution flow.",
     "",
     graphConstruction,
     "",
     sectionBanner,
     "# EXECUTION",
     sectionBanner,
     "# Example of how to run this workflow locally.",
     "# Modify initial_state to provide inputs to your workflow.",
     "",
     "if __name__ == \"__main__\":",
     "    # Define initial state with any required inputs",
     "    initial_state = \x7b",
     "        # Add your initial values here",
     "        # Example: \"topic\": \"AI agents\", \"query\": \"What is LangGraph?\"",
     "    \x7d",
     "",
     "    print(\"🚀 Starting workflow execution...\")",
     "    print(f\"📊 Initial state: \x7binitial_state\x7d\")",
     "    print()",
     "",
     "    # Run the workflow",
     "    result = app.invoke(initial_state)",
     "",
     "    print()",
     "    print(\"✅ Execution completed!\")",
     "    print(\"=\" * 60)",
     "    print(\"📤 Final state:\")",
     "    for key, value in result.items():",
     "        print(f\"  \x7bkey\x7d: \x7bvalue\x7d\")",
     ""])

/-! ## `LangGraphCompiler.compile` (lines 28–139) -/

/-- Model of `LangGraphCompiler.compile`: substitute the default schema when none is
declared, infer output fields, validate (raising `ValueError` on fatal
errors), generate all components and render the template.  The returned
graph carries the state schema as left by the call: the inference loop
appends to the *caller's* `state_schema` list in place whenever a non-empty
schema was supplied (when it was empty, the local variable is rebound and
the caller's graph is untouched). -/
def langGraphCompile (g : GraphD) : Except String (String × GraphD) :=
  let schema := resolveStateSchema g.state_schema g.nodes
  let mutated := if g.state_schema.isEmpty then g else { g with state_schema := schema }
  match validateL schema g.nodes g.edges with
  | .error e => .error e
  | .ok _warnings =>
      .ok (renderTemplate g.name g.state_schema.isEmpty
            (genImports schema g.nodes) (genStateClass schema)
            (genNodeFunctions g.nodes) (genRoutingFunctions g.edges)
            (genGraphConstruction g.nodes g.edges),
          mutated)

/-! ## `WorkflowCompiler` (`compiler.py`) -/

/-- Model of `WorkflowCompiler._validate` (lines 47–63): first the trigger check,
then per edge the source and target existence checks; the first violated
check raises `ValueError` with its message. -/
def workflowValidate (nodes : List NodeD) (edges : List EdgeD) :
    Except String Unit :=
  if (nodes.filter (fun n => n.type = "trigger")).isEmpty then
    .error "Workflow must have at least one trigger node"
  else
    match edges.findSome? (fun e =>
      if ¬ (nodes.map (fun n => n.id)).contains e.source then
        some ("Edge source \x27" ++ e.source ++ "\x27 not found")
      else if ¬ (nodes.map (fun n => n.id)).contains e.target then
        some ("Edge target \x27" ++ e.target ++ "\x27 not found")
      else Option.none) with
    | some msg => .error msg
    | Option.none => .ok ()

/-- Model of `WorkflowCompiler._generate_node_function` (lines 123–189). -/
def workflowNodeFunctionLines (n : NodeD) : List String :=
  ["def " ++ n.id ++ "_handler(state: WorkflowState):",
   "    \"\"\"Handler for " ++ n.type ++ " node: " ++ n.id ++ "\"\"\""] ++
  (if n.type = "trigger" then
    ["    # Trigger node - initializes workflow",
     "    state[\x27current_node\x27] = \x27" ++ n.id ++ "\x27",
     "    return state"]
   else if n.type = "llm" then
    ["    # LLM node - model: " ++ n.data.model.getD "gpt-4",
     "    # TODO: Implement LLM call",
     "    # prompt = \x27\x27\x27" ++ n.data.prompt.getD "" ++ "\x27\x27\x27",
     "    state[\x27current_node\x27] = \x27" ++ n.id ++ "\x27",
     "    # state[\x27data\x27][\x27llm_output\x27] = call_llm(prompt, state)",
     "    return state"]
   else if n.type = "api" then
    ["    # API node - " ++ n.data.method.getD "GET" ++ " " ++ n.data.url.getD "",
     "    # TODO: Implement API call",
     "    state[\x27current_node\x27] = \x27" ++ n.id ++ "\x27",
     "    # state[\x27data\x27][\x27api_response\x27] = call_api(...)",
     "    return state"]
   else if n.type = "conditional" then
    ["    # Conditional node",
     "    # condition: " ++ n.data.condition.getD "",
     "    state[\x27current_node\x27] = \x27" ++ n.id ++ "\x27",
     "    # Evaluate condition and route accordingly",
     "    return state"]
   else if n.type = "output" then
    ["    # Output node - final result",
     "    state[\x27current_node\x27] = \x27" ++ n.id ++ "\x27",
     "    return state"]
   else
    ["    # Unknown node type: " ++ n.type,
     "    state[\x27current_node\x27] = \x27" ++ n.id ++ "\x27",
     "    return state"])

/-- Model of `WorkflowCompiler._generate_code` (lines 65–121). -/
def workflowGenerateCode (nodes : List NodeD) (edges : List EdgeD) : String :=
  String.intercalate "\n" (
    ["# Generated LangGraph Workflow",
     "from langgraph.graph import StateGraph, END",
     "from typing import TypedDict, Annotated",
     "import operator",
     "",
     "# State definition",
     "class WorkflowState(TypedDict):",
     "    messages: Annotated[list, operator.add]",
     "    current_node: str",
     "    data: dict",
     ""] ++
    (nodes.map (fun n => workflowNodeFunctionLines n ++ [""])).flatten ++
    ["# Build graph",
     "workflow = StateGraph(WorkflowState)",
     ""] ++
    nodes.map (fun n =>
      "workflow.add_node(\"" ++ n.id ++ "\", " ++ n.id ++ "_handler)") ++
    [""] ++
    edges.map (fun e =>
      "workflow.add_edge(\"" ++ e.source ++ "\", \"" ++ e.target ++ "\")") ++
    (match (nodes.filter (fun n => n.type = "trigger")).head? with
     | some t => ["workflow.set_entry_point(\"" ++ t.id ++ "\")"]
     | Option.none => []) ++
    ["",
     "# Compile graph",
     "app = workflow.compile()"])

/-- Model of `WorkflowCompiler.compile` (lines 19–45): build the node map and
adjacency (side tables without observable effect), validate, then generate
code. -/
def workflowCompile (g : GraphD) : Except String String :=
  match workflowValidate g.nodes g.edges with
  | .error e => .error e
  | .ok _ => .ok (workflowGenerateCode g.nodes g.edges)

/-! ## Runtime behaviour of the generated LLM node's provider dispatch
(`_generate_llm_node` lines 402–420) -/

/-- The three LLM client classes the generated code can construct. -/
inductive LLMBackend where
  | chatOpenAI
  | chatAnthropic
  | chatGoogle
deriving DecidableEq

/-- The `if "{provider}" == "openai": llm = ChatOpenAI(...)` chain of the
generated LLM node function, dispatching on the provider string baked into
the code at generation time. -/
def generatedLLMDispatch (provider : String) : Except String LLMBackend :=
  if provider = "openai" then .ok .chatOpenAI
  else if provider = "anthropic" then .ok .chatAnthropic
  else if provider = "google" then .ok .chatGoogle
  else .error ("Unknown provider: " ++ provider)

/-! ## `NodeHandlerFactory` (`node_handlers.py` lines 270–291) -/

/-- The handler classes registered in the factory. -/
inductive HandlerKind where
  | trigger
  | llm
  | api
  | conditional
  | output
deriving DecidableEq

/-- The factory's `self.handlers` dict: note there is no entry for
`dataset` nodes. -/
def handlersMap : List (String × HandlerKind) :=
  [("trigger", .trigger), ("llm", .llm), ("api", .api),
   ("conditional", .conditional), ("output", .output)]

/-- Model of `NodeHandlerFactory.get_handler`: dict lookup; a missing entry raises
`ValueError("Unsupported node type: ...")`. -/
def getHandler (t : String) : Except String HandlerKind :=
  match (handlersMap.find? (fun p => p.1 = t)).map Prod.snd with
  | some h => .ok h
  | Option.none => .error ("Unsupported node type: " ++ t)

/-- Model of `ConditionalNodeHandler.execute` (lines 179–198): evaluate the condition
(only `condition_type == "simple"` evaluates; anything else gives `False`),
store the result under `state["data"]["condition_result"]` and set
`current_node`.  A `TypeError` from the comparison propagates. -/
def conditionalHandlerExecute (n : NodeD) (state : Data) :
    Except String Data :=
  let condition := n.data.condition.getD ""
  let condType := n.data.condition_type.getD "simple"
  match (if condType = "simple" then evalSimpleCondition condition state
         else .ok false) with
  | .error e => .error e
  | .ok result =>
      .ok (upsert
            (upsert state "data"
              (.dict (upsert (stateData state) "condition_result" (.bool result))))
            "current_node" (.str n.id))

/-! ## `WorkflowExecutor` (`executor.py`)

The traversal `_execute_from_node` is embedded as a fuel-indexed function
`dfsF` over an explicit work stack: popping an unvisited node marks it
visited, dispatches its handler and pushes its successors in front, which
performs exactly the source's depth-first recursion with its
check-at-entry `visited` test, single threaded working state and abort on
the first exception.  The fuel is an embedding artifact;
`dfsF_fuel_sufficient` below proves the fuel passed by `executeModel` can
never run out, which is the termination argument for the traversal.

Node handlers perform external LLM / HTTP calls, so the traversal is
verified against an arbitrary handler oracle mapping a node and the current
state to an updated state or a raised exception's message. -/

/-- The behaviour of `handler.execute(node, state)` as seen by the
executor. -/
def HandlerOracle := NodeD → Data → Except String Data

/-- Model of `ExecutionStatus` (`models/execution.py`). -/
inductive ExecStatus where
  | pending
  | running
  | completed
  | failed
  | cancelled
deriving DecidableEq

/-- The exceptions that can abort `WorkflowExecutor.execute`. `fuelOut` is
an embedding artifact proven unreachable by `dfsF_fuel_sufficient`. -/
inductive ExecErr where
  | keyErr (source : String)
  | noTrigger
  | nodeNotFound (id : String)
  | dispatchErr (msg : String)
  | handlerErr (id : String) (msg : String)
  | fuelOut
deriving DecidableEq

/-- Model of `str(e)` of each exception (a `KeyError` stringifies to the `repr` of
the missing key). -/
def errString : ExecErr → String
  | .keyErr s => "\x27" ++ s ++ "\x27"
  | .noTrigger => "No trigger node found"
  | .nodeNotFound id => "Node " ++ id ++ " not found"
  | .dispatchErr m => m
  | .handlerErr _ m => m
  | .fuelOut => "fuel exhausted"

/-- Result of the traversal: the final `visited` set, the nodes whose
handlers were invoked (in invocation order), the final working state and
the exception that aborted the run, if any. -/
structure DfsOut where
  visited : List String
  invoked : List String
  state : Data
  err : Option ExecErr

/-- The executor's node map `{node["id"]: node for node in ...}` (later
duplicates overwrite in place). -/
def nodeMapOf (nodes : List NodeD) : List (String × NodeD) :=
  nodes.foldl (fun acc n =>
    match acc.find? (fun p => p.1 = n.id) with
    | some _ => acc.map (fun p => if p.1 = n.id then (p.1, n) else p)
    | Option.none => acc ++ [(n.id, n)]) []

/-- Model of `nodes.get(node_id)` on the executor's node map. -/
def lookupNode (nodes : List NodeD) (id : String) : Option NodeD :=
  ((nodeMapOf nodes).find? (fun p => p.1 = id)).map Prod.snd

/-- The adjacency list of a node id: targets of its outgoing edges in edge
order (equal to the executor's `adjacency` dict whenever that dict could be
built without a `KeyError`). -/
def adjacencyOf (edges : List EdgeD) (id : String) : List String :=
  (edges.filter (fun e => e.source = id)).map (fun e => e.target)

/-- First node of type `trigger` in the node map's value order. -/
def triggerOf (nodes : List NodeD) : Option NodeD :=
  (((nodeMapOf nodes).map Prod.snd).filter (fun n => n.type = "trigger")).head?

/-- Model of `_execute_from_node` (lines 125–195) over an explicit work stack with
fuel.  Arguments after the fuel: pending stack, `visited`, handler
invocation log, working state. -/
def dfsF (g : GraphD) (h : HandlerOracle) :
    Nat → List String → List String → List String → Data → Option DfsOut
  | 0, _, _, _, _ => Option.none
  | _ + 1, [], visited, invoked, st => some ⟨visited, invoked, st, Option.none⟩
  | f + 1, m :: rest, visited, invoked, st =>
    if m ∈ visited then dfsF g h f rest visited invoked st
    else
      match lookupNode g.nodes m with
      | Option.none => some ⟨m :: visited, invoked, st, some (.nodeNotFound m)⟩
      | some node =>
        match getHandler node.type with
        | .error msg => some ⟨m :: visited, invoked, st, some (.dispatchErr msg)⟩
        | .ok _ =>
          match h node st with
          | .error msg =>
              some ⟨m :: visited, invoked ++ [m], st, some (.handlerErr m msg)⟩
          | .ok st2 =>
              dfsF g h f (adjacencyOf g.edges m ++ rest) (m :: visited)
                (invoked ++ [m]) st2

/-- All node ids the traversal can ever push: declared node ids and edge
targets. -/
def univFinset (g : GraphD) : Finset String :=
  (g.nodes.map (fun n => n.id) ++ g.edges.map (fun e => e.target)).toFinset

/-- Termination measure of the traversal: unvisited reachable ids weighted
by the maximal possible successor count, plus the pending stack length. -/
def dfsMeasure (g : GraphD) (stack visited : List String) : Nat :=
  ((univFinset g ∪ stack.toFinset) \ visited.toFinset).card * (g.edges.length + 2)
    + stack.length

/-- The executor's initial working state (lines 77–82). -/
def initialState (input : Data) : Data :=
  [("data", .dict input), ("current_node", .none), ("messages", .list [])]

/-- The execution record as left by `WorkflowExecutor.execute`
(`models/execution.py` columns it writes), plus the invocation log and the
aborting exception of the model. -/
structure ExecResult where
  status : ExecStatus
  startedAt : Bool
  completedAt : Bool
  errorMessage : Option String
  outputData : Option Value
  invoked : List String
  err : Option ExecErr

/-- The record written by the `except` block of `execute` (lines 108–123):
`Failed`, `completed_at` set, `error_message = str(e)`. -/
def failedResult (e : ExecErr) (invoked : List String) : ExecResult :=
  ⟨.failed, true, true, some (errString e), Option.none, invoked, some e⟩

/-- Model of `WorkflowExecutor.execute` (lines 24–123): adjacency construction (whose
`KeyError` on an edge source that is no node id aborts first), entry-point
lookup, depth-first traversal, then the `Completed` or `Failed` record. -/
def executeModel (g : GraphD) (h : HandlerOracle) (input : Data) : ExecResult :=
  match g.edges.findSome? (fun e =>
      if (g.nodes.map (fun n => n.id)).contains e.source then Option.none
      else some e.source) with
  | some s => failedResult (.keyErr s) []
  | Option.none =>
    match triggerOf g.nodes with
    | Option.none => failedResult .noTrigger []
    | some entry =>
      match dfsF g h (dfsMeasure g [entry.id] [] + 1) [entry.id] [] []
          (initialState input) with
      | Option.none => failedResult .fuelOut []
      | some out =>
        match out.err with
        | some e => failedResult e out.invoked
        | Option.none =>
            ⟨.completed, true, true, Option.none,
             some ((alookup out.state "data").getD (.dict [])),
             out.invoked, Option.none⟩

/-- Whether the traversal of `executeModel` completes within the fuel it is
given (`true` whenever there is no trigger, since no traversal starts). -/
def executorTerminates (g : GraphD) (h : HandlerOracle) (input : Data) : Bool :=
  match triggerOf g.nodes with
  | Option.none => true
  | some entry =>
      (dfsF g h (dfsMeasure g [entry.id] [] + 1) [entry.id] [] []
        (initialState input)).isSome

/-! ## Concrete fixtures used by claim witnesses and counterexamples -/

/-- A trigger node with empty config. -/
def trigNode : NodeD := { id := "t1", type := "trigger" }

/-- An llm node with empty config. -/
def llmNodeA : NodeD := { id := "a1", type := "llm" }

/-- A graph with one llm node, a declared one-field schema and no trigger. -/
def gNoTrigger : GraphD :=
  { name := "w", state_schema := [{ name := "x", type := "str" }],
    nodes := [llmNodeA], edges := [] }

/-- trigger → llm, linear. -/
def gLinear : GraphD :=
  { name := "w", nodes := [trigNode, llmNodeA],
    edges := [{ id := "e1", source := "t1", target := "a1" }] }

/-- trigger → llm with a self-loop on the llm node. -/
def gSelfLoop : GraphD :=
  { name := "w", nodes := [trigNode, llmNodeA],
    edges := [{ id := "e1", source := "t1", target := "a1" },
              { id := "e2", source := "a1", target := "a1" }] }

/-- A handler oracle whose calls all succeed without touching the state. -/
def oracleOk : HandlerOracle := fun _ st => .ok st

/-- A handler oracle for which node `a1` raises with the given message. -/
def oracleFailA (msg : String) : HandlerOracle :=
  fun n st => if n.id = "a1" then .error msg else .ok st

/-- The code component of a successful compilation (abbreviation of the
template rendering of `compile`). -/
def compiledCode (g : GraphD) : String :=
  renderTemplate g.name g.state_schema.isEmpty
    (genImports (resolveStateSchema g.state_schema g.nodes) g.nodes)
    (genStateClass (resolveStateSchema g.state_schema g.nodes))
    (genNodeFunctions g.nodes) (genRoutingFunctions g.edges)
    (genGraphConstruction g.nodes g.edges)


/-! ## Traversal invariants

`dfsF_fuel_sufficient` shows the fuel chosen by `executeModel` can never be
exhausted (each visited-skip shortens the stack, each handler dispatch
visits a fresh id out of the finite universe), which is the termination
argument for the source's recursion; `dfsF_spec` establishes that handler
invocations are pairwise distinct, only ever touch unvisited nodes, and
that a handler failure ends the invocation log. -/

theorem adjacency_mem_univ {g : GraphD} {m x : String}
    (hx : x ∈ adjacencyOf g.edges m) : x ∈ univFinset g := by
  unfold adjacencyOf at hx
  unfold univFinset
  rw [List.mem_toFinset, List.mem_append]
  right
  rcases List.mem_map.1 hx with ⟨e, he, rfl⟩
  exact List.mem_map.2 ⟨e, List.mem_of_mem_filter he, rfl⟩

theorem sdiff_union_cons_of_mem (univ : Finset String) (m : String)
    (rest visited : List String) (hm : m ∈ visited) :
    (univ ∪ (m :: rest).toFinset) \ visited.toFinset
      = (univ ∪ rest.toFinset) \ visited.toFinset := by
  ext x
  simp only [Finset.mem_sdiff, Finset.mem_union, List.mem_toFinset,
    List.mem_cons]
  constructor
  · rintro ⟨h1, h2⟩
    refine ⟨?_, h2⟩
    rcases h1 with h | h | h
    · exact Or.inl h
    · exact absurd (h ▸ hm) h2
    · exact Or.inr h
  · rintro ⟨h1, h2⟩
    exact ⟨h1.imp id Or.inr, h2⟩

theorem card_push_lt (g : GraphD) (m : String) (rest visited : List String)
    (hm : m ∉ visited) :
    ((univFinset g ∪ (adjacencyOf g.edges m ++ rest).toFinset)
        \ (m :: visited).toFinset).card
      < ((univFinset g ∪ (m :: rest).toFinset) \ visited.toFinset).card := by
  apply Finset.card_lt_card
  rw [Finset.ssubset_iff_of_subset]
  · refine ⟨m, ?_, ?_⟩
    · simp [Finset.mem_sdiff, hm]
    · simp
  · intro x hx
    simp only [Finset.mem_sdiff, Finset.mem_union, List.mem_toFinset,
      List.mem_append, List.mem_cons] at hx ⊢
    rcases hx with ⟨h1, h2⟩
    refine ⟨?_, fun hv => h2 (Or.inr hv)⟩
    rcases h1 with h | h | h
    · exact Or.inl h
    · exact Or.inl (adjacency_mem_univ h)
    · exact Or.inr (Or.inr h)

theorem measure_visited_succ {g : GraphD} {m : String}
    {rest visited : List String} (hm : m ∈ visited) :
    dfsMeasure g (m :: rest) visited = dfsMeasure g rest visited + 1 := by
  unfold dfsMeasure
  rw [sdiff_union_cons_of_mem _ _ _ _ hm]
  simp [Nat.add_assoc]

theorem measure_push_lt {g : GraphD} {m : String}
    {rest visited : List String} (hm : m ∉ visited) :
    dfsMeasure g (adjacencyOf g.edges m ++ rest) (m :: visited)
      < dfsMeasure g (m :: rest) visited := by
  unfold dfsMeasure
  have hc := card_push_lt g m rest visited hm
  have hadj : (adjacencyOf g.edges m).length ≤ g.edges.length := by
    unfold adjacencyOf
    rw [List.length_map]
    exact List.length_filter_le _ _
  have hmul := Nat.mul_le_mul_right (g.edges.length + 2) (Nat.succ_le_of_lt hc)
  rw [Nat.succ_mul] at hmul
  simp only [List.length_append, List.length_cons]
  omega

theorem dfsF_fuel_sufficient (g : GraphD) (h : HandlerOracle) :
    ∀ f stack visited invoked st, dfsMeasure g stack visited < f →
      (dfsF g h f stack visited invoked st).isSome := by
  intro f
  induction f with
  | zero => intro stack visited invoked st hlt; exact absurd hlt (Nat.not_lt_zero _)
  | succ f ih =>
    intro stack visited invoked st hlt
    match stack with
    | [] => simp [dfsF]
    | m :: rest =>
      rw [dfsF]
      split
      next hv =>
        apply ih
        have h1 : dfsMeasure g (m :: rest) visited
            = dfsMeasure g rest visited + 1 := measure_visited_succ hv
        omega
      next hv =>
        split
        next => simp
        next node _ =>
          split
          next => simp
          next =>
            split
            next => simp
            next st2 _ =>
              apply ih
              have h1 : dfsMeasure g (adjacencyOf g.edges m ++ rest) (m :: visited)
                  < dfsMeasure g (m :: rest) visited := measure_push_lt hv
              omega

theorem dfsF_spec (g : GraphD) (h : HandlerOracle) :
    ∀ f stack visited invoked st out,
      dfsF g h f stack visited invoked st = some out →
      (∀ x ∈ visited, x ∈ out.visited) ∧
      ∃ dlt, out.invoked = invoked ++ dlt ∧ dlt.Nodup ∧
        (∀ x ∈ dlt, x ∉ visited) ∧ (∀ x ∈ dlt, x ∈ out.visited) ∧
        (∀ n msg, out.err = some (.handlerErr n msg) → dlt.getLast? = some n) := by
  intro f
  induction f with
  | zero => intro stack visited invoked st out hout; simp [dfsF] at hout
  | succ f ih =>
    intro stack visited invoked st out hout
    match stack with
    | [] =>
      rw [dfsF] at hout
      cases hout
      exact ⟨fun x hx => hx, [], by simp, List.nodup_nil, by simp, by simp,
        by simp⟩
    | m :: rest =>
      rw [dfsF] at hout
      split at hout
      next hv =>
        exact ih rest visited invoked st out hout
      next hv =>
        split at hout
        next =>
          cases hout
          exact ⟨fun x hx => List.mem_cons_of_mem _ hx, [], by simp,
            List.nodup_nil, by simp, by simp, by simp⟩
        next node _ =>
          split at hout
          next =>
            cases hout
            exact ⟨fun x hx => List.mem_cons_of_mem _ hx, [], by simp,
              List.nodup_nil, by simp, by simp, by simp⟩
          next =>
            split at hout
            next =>
              cases hout
              refine ⟨fun x hx => List.mem_cons_of_mem _ hx, [m], rfl,
                List.nodup_singleton m, ?_, ?_, ?_⟩
              · intro x hx
                rw [List.mem_singleton] at hx
                exact hx ▸ hv
              · intro x hx
                rw [List.mem_singleton] at hx
                exact hx ▸ List.mem_cons_self m visited
              · intro n msg' herr
                simp only [Option.some.injEq, ExecErr.handlerErr.injEq] at herr
                simp [herr.1]
            next st2 _ =>
              obtain ⟨hmono, dlt, hinv, hnd, hfresh, hvis, herr⟩ :=
                ih _ _ _ _ _ hout
              refine ⟨fun x hx => hmono x (List.mem_cons_of_mem _ hx),
                m :: dlt, ?_, ?_, ?_, ?_, ?_⟩
              · rw [hinv]; simp
              · refine List.nodup_cons.2 ⟨?_, hnd⟩
                intro hmem
                exact (hfresh m hmem) (List.mem_cons_self m visited)
              · intro x hx
                rcases List.mem_cons.1 hx with rfl | hx
                · exact hv
                · intro hxv
                  exact (hfresh x hx) (List.mem_cons_of_mem _ hxv)
              · intro x hx
                rcases List.mem_cons.1 hx with rfl | hx
                · exact hmono x (List.mem_cons_self x visited)
                · exact hvis x hx
              · intro n msg' he
                have hlast := herr n msg' he
                have hne : dlt ≠ [] := by
                  intro hnil
                  rw [hnil] at hlast
                  simp at hlast
                rw [show m :: dlt = [m] ++ dlt from rfl,
                  List.getLast?_append_of_ne_nil _ hne]
                exact hlast

/-- Invariant of a full execution: the handler-invocation log never repeats
a node, and a run aborted by a handler exception is exactly the `Failed`
record whose invocation log ends at the failing node. -/
theorem executeModel_spec (g : GraphD) (h : HandlerOracle) (input : Data) :
    (executeModel g h input).invoked.Nodup ∧
    ∀ n msg, (executeModel g h input).err = some (.handlerErr n msg) →
      executeModel g h input
        = failedResult (.handlerErr n msg) (executeModel g h input).invoked ∧
      (executeModel g h input).invoked.getLast? = some n := by
  unfold executeModel
  split
  · refine ⟨List.nodup_nil, ?_⟩
    intro n msg hne
    simp [failedResult] at hne
  · split
    · refine ⟨List.nodup_nil, ?_⟩
      intro n msg hne
      simp [failedResult] at hne
    · split
      · refine ⟨List.nodup_nil, ?_⟩
        intro n msg hne
        simp [failedResult] at hne
      · next out hdfs =>
        obtain ⟨hmono, dlt, hinv, hnd, hfresh, hvis, herr⟩ :=
          dfsF_spec g h _ _ _ _ _ _ hdfs
        rw [List.nil_append] at hinv
        split
        · next e he =>
          refine ⟨by simpa [failedResult, hinv] using hnd, ?_⟩
          intro n msg hne
          simp only [failedResult, Option.some.injEq] at hne
          subst hne
          refine ⟨rfl, ?_⟩
          simp only [failedResult]
          rw [hinv]
          exact herr n msg (he ▸ rfl)
        · refine ⟨by simpa [hinv] using hnd, ?_⟩
          intro n msg hne
          simp at hne

/-! ## State-schema inference invariants (for idempotence and determinism) -/

theorem inferStep_mem_mono {acc : List StateFieldD × List String} {n : NodeD}
    {x : String} (hx : x ∈ acc.2) : x ∈ (inferStep acc n).2 := by
  unfold inferStep
  split
  · split
    · exact hx
    · exact List.mem_cons_of_mem _ hx
  · split
    · exact hx
    · split
      · exact hx
      · exact List.mem_cons_of_mem _ hx

theorem inferStep_eq_of_mem {acc : List StateFieldD × List String} {n : NodeD}
    (hc : ∀ k, contribKey? n = some k → k ∈ acc.2) : inferStep acc n = acc := by
  unfold inferStep
  by_cases hok : n.data.output_key.getD "" ≠ ""
  · rw [if_pos hok, if_pos]
    apply hc
    unfold contribKey?
    rw [if_pos hok]
  · rw [if_neg hok]
    cases hd : defaultKeyFor n with
    | none => rfl
    | some dk =>
      simp only []
      rw [if_pos]
      apply hc
      unfold contribKey?
      rw [if_neg hok, hd]
      rfl

theorem inferStep_contrib_mem {acc : List StateFieldD × List String}
    {n : NodeD} {k : String} (hck : contribKey? n = some k) :
    k ∈ (inferStep acc n).2 := by
  unfold inferStep
  unfold contribKey? at hck
  by_cases hok : n.data.output_key.getD "" ≠ ""
  · rw [if_pos hok] at hck
    rw [Option.some.injEq] at hck
    subst hck
    rw [if_pos hok]
    split
    next hmem => exact hmem
    next => exact List.mem_cons_self _ _
  · rw [if_neg hok] at hck
    rw [if_neg hok]
    cases hd : defaultKeyFor n with
    | none => rw [hd] at hck; exact absurd hck (by simp)
    | some dk =>
      rw [hd] at hck
      simp only [Option.map_some', Option.some.injEq] at hck
      subst hck
      simp only []
      split
      next hmem => exact hmem
      next => exact List.mem_cons_self _ _

theorem inferStep_name_iff {acc : List StateFieldD × List String} {n : NodeD}
    (hiff : ∀ x, x ∈ acc.2 ↔ x ∈ acc.1.map (fun f => f.name)) :
    ∀ x, x ∈ (inferStep acc n).2 ↔ x ∈ (inferStep acc n).1.map (fun f => f.name) := by
  unfold inferStep
  split
  · split
    · exact hiff
    · intro x
      simp only [List.map_append, List.map_cons, List.map_nil, List.mem_cons,
        List.mem_append, mkInferredField, List.mem_singleton]
      rw [hiff x]
      tauto
  · split
    · exact hiff
    · split
      · exact hiff
      · intro x
        simp only [List.map_append, List.map_cons, List.map_nil, List.mem_cons,
          List.mem_append, mkInferredField, List.mem_singleton]
        rw [hiff x]
        tauto

theorem inferStep_fst_prefix (acc : List StateFieldD × List String)
    (n : NodeD) : ∃ u, (inferStep acc n).1 = acc.1 ++ u := by
  unfold inferStep
  split
  · split
    · exact ⟨[], by simp⟩
    · exact ⟨_, rfl⟩
  · split
    · exact ⟨[], by simp⟩
    · split
      · exact ⟨[], by simp⟩
      · exact ⟨_, rfl⟩

theorem foldl_inferStep_mem_mono :
    ∀ (ns : List NodeD) (acc : List StateFieldD × List String) (x : String),
      x ∈ acc.2 → x ∈ (List.foldl inferStep acc ns).2 := by
  intro ns
  induction ns with
  | nil => intro acc x hx; exact hx
  | cons n t ih =>
    intro acc x hx
    exact ih (inferStep acc n) x (inferStep_mem_mono hx)

theorem foldl_inferStep_eq_of_mem :
    ∀ (ns : List NodeD) (acc : List StateFieldD × List String),
      (∀ n ∈ ns, ∀ k, contribKey? n = some k → k ∈ acc.2) →
      List.foldl inferStep acc ns = acc := by
  intro ns
  induction ns with
  | nil => intro acc _; rfl
  | cons n t ih =>
    intro acc hc
    rw [List.foldl_cons,
      inferStep_eq_of_mem (fun k hk => hc n (List.mem_cons_self n t) k hk)]
    exact ih acc (fun m hm k hk => hc m (List.mem_cons_of_mem _ hm) k hk)

theorem foldl_inferStep_contrib_mem :
    ∀ (ns : List NodeD) (acc : List StateFieldD × List String) (n : NodeD),
      n ∈ ns → ∀ k, contribKey? n = some k →
        k ∈ (List.foldl inferStep acc ns).2 := by
  intro ns
  induction ns with
  | nil => intro acc n hn; exact absurd hn (List.not_mem_nil n)
  | cons m t ih =>
    intro acc n hn k hk
    rcases List.mem_cons.1 hn with rfl | hn
    · exact foldl_inferStep_mem_mono t _ k (inferStep_contrib_mem hk)
    · exact ih (inferStep acc m) n hn k hk

theorem foldl_inferStep_name_iff :
    ∀ (ns : List NodeD) (acc : List StateFieldD × List String),
      (∀ x, x ∈ acc.2 ↔ x ∈ acc.1.map (fun f => f.name)) →
      ∀ x, x ∈ (List.foldl inferStep acc ns).2 ↔
        x ∈ (List.foldl inferStep acc ns).1.map (fun f => f.name) := by
  intro ns
  induction ns with
  | nil => intro acc hiff; exact hiff
  | cons n t ih =>
    intro acc hiff
    exact ih (inferStep acc n) (inferStep_name_iff hiff)

theorem foldl_inferStep_fst_prefix :
    ∀ (ns : List NodeD) (acc : List StateFieldD × List String),
      ∃ t, (List.foldl inferStep acc ns).1 = acc.1 ++ t := by
  intro ns
  induction ns with
  | nil => intro acc; exact ⟨[], by simp⟩
  | cons n t ih =>
    intro acc
    obtain ⟨u, hu⟩ := inferStep_fst_prefix acc n
    obtain ⟨v, hv⟩ := ih (inferStep acc n)
    exact ⟨u ++ v, by rw [List.foldl_cons, hv, hu, List.append_assoc]⟩

/-- Running the inference loop a second time over its own result adds
nothing. -/
theorem inferSchema_idem (s : List StateFieldD) (ns : List NodeD) :
    inferSchema (inferSchema s ns) ns = inferSchema s ns := by
  unfold inferSchema
  have hiffF := foldl_inferStep_name_iff ns (s, s.map (fun f => f.name))
    (fun x => Iff.rfl)
  have hfix : List.foldl inferStep
      ((List.foldl inferStep (s, s.map (fun f => f.name)) ns).1,
       (List.foldl inferStep (s, s.map (fun f => f.name)) ns).1.map
         (fun f => f.name)) ns
      = ((List.foldl inferStep (s, s.map (fun f => f.name)) ns).1,
         (List.foldl inferStep (s, s.map (fun f => f.name)) ns).1.map
           (fun f => f.name)) := by
    apply foldl_inferStep_eq_of_mem
    intro n hn k hk
    exact (hiffF k).1 (foldl_inferStep_contrib_mem ns _ n hn k hk)
  rw [hfix]

/-- The inference loop preserves non-emptiness of the schema. -/
theorem inferSchema_ne_nil {s : List StateFieldD} (ns : List NodeD)
    (hs : s ≠ []) : inferSchema s ns ≠ [] := by
  unfold inferSchema
  obtain ⟨t, ht⟩ := foldl_inferStep_fst_prefix ns (s, s.map (fun f => f.name))
  rw [ht]
  simp [hs]

/-! ## Placeholder-substitution invariants (for the prompt formatter) -/

theorem takeWhile_word_append (w l : List Char)
    (hall : ∀ c ∈ w, wordChar c = true)
    (hl : ∀ c, l.head? = some c → wordChar c = false) :
    (w ++ l).takeWhile wordChar = w := by
  induction w with
  | nil =>
    cases l with
    | nil => rfl
    | cons c t =>
      simp only [List.nil_append, List.takeWhile_cons, hl c rfl]
      simp
  | cons a w ih =>
    have ha := hall a (List.mem_cons_self a w)
    simp only [List.cons_append, List.takeWhile_cons, ha, if_true]
    rw [ih (fun c hc => hall c (List.mem_cons_of_mem _ hc))]

theorem dropWhile_word_append (w l : List Char)
    (hall : ∀ c ∈ w, wordChar c = true)
    (hl : ∀ c, l.head? = some c → wordChar c = false) :
    (w ++ l).dropWhile wordChar = l := by
  induction w with
  | nil =>
    cases l with
    | nil => rfl
    | cons c t =>
      simp only [List.nil_append, List.dropWhile_cons, hl c rfl]
      simp
  | cons a w ih =>
    have ha := hall a (List.mem_cons_self a w)
    simp only [List.cons_append, List.dropWhile_cons, ha, if_true]
    exact ih (fun c hc => hall c (List.mem_cons_of_mem _ hc))

/-- Characters other than `{` pass through the `re.sub` scan unchanged. -/
theorem pySubDoubleBrace_no_brace (repl : String → String) :
    ∀ (cs rest : List Char), (∀ c ∈ cs, c ≠ '{') →
      pySubDoubleBrace repl (cs ++ rest) = cs ++ pySubDoubleBrace repl rest := by
  intro cs
  induction cs with
  | nil => intro rest _; rfl
  | cons c cs ih =>
    intro rest hc
    have hcne : c ≠ '{' := hc c (List.mem_cons_self c cs)
    rw [List.cons_append, pySubDoubleBrace.eq_def]
    split
    next heq => exact absurd heq (by simp)
    next r heq =>
      exact absurd (List.head_eq_of_cons_eq heq) hcne
    next c2 r heq =>
      injection heq with h1 h2
      subst h1
      subst h2
      rw [ih rest (fun x hx => hc x (List.mem_cons_of_mem _ hx))]
      simp

/-- A well-formed `{{word}}` placeholder at the head of the input is
replaced by `repl word` and the scan continues after it. -/
theorem pySubDoubleBrace_placeholder (repl : String → String)
    (w suffix : List Char) (hw : w ≠ [])
    (hall : ∀ c ∈ w, wordChar c = true) :
    pySubDoubleBrace repl ('{' :: '{' :: (w ++ '}' :: '}' :: suffix))
      = (repl ⟨w⟩).data ++ pySubDoubleBrace repl suffix := by
  have hbrace : ∀ c : Char, ('}' :: '}' :: suffix).head? = some c →
      wordChar c = false := by
    intro c hc
    simp only [List.head?_cons, Option.some.injEq] at hc
    subst hc
    rfl
  have htake := takeWhile_word_append w ('}' :: '}' :: suffix) hall hbrace
  have hdrop := dropWhile_word_append w ('}' :: '}' :: suffix) hall hbrace
  rw [pySubDoubleBrace.eq_def]
  simp only [htake, List.isEmpty_iff]
  rw [if_neg hw]
  split
  next tail heq =>
    rw [hdrop] at heq
    injection heq with h1 heq
    injection heq with h2 heq
    rw [heq]
  next hcon =>
    exact (hcon suffix hdrop).elim

/-! ## Claim C1 -/

/-- C1 counterexample: the claim says *both* compiler entry points raise a
`StructuralError` on a graph with zero trigger nodes; but
`LangGraphCompiler.compile` performs no trigger check and succeeds on the
concrete zero-trigger graph `gNoTrigger`, returning compiled code. -/
theorem c1_counterexample : (langGraphCompile gNoTrigger).isOk = true := rfl

/-- C1 (amended): for every graph with zero nodes of type `trigger`,
`WorkflowCompiler.compile` raises (`ValueError` `"Workflow must have at
least one trigger node"`) and returns no code; `LangGraphCompiler.compile`
however performs no trigger-existence check and can succeed on a
zero-trigger graph. -/
theorem c1_main :
    (∀ g : GraphD, (g.nodes.filter (fun n => n.type = "trigger")).isEmpty →
      workflowCompile g = .error "Workflow must have at least one trigger node") ∧
    (langGraphCompile gNoTrigger).isOk = true := by
  refine ⟨?_, rfl⟩
  intro g hg
  unfold workflowCompile workflowValidate
  rw [if_pos hg]

/-- C1 witness: the amended theorem applied to the concrete zero-trigger
graph. -/
theorem c1_witness :
    workflowCompile gNoTrigger
      = .error "Workflow must have at least one trigger node" :=
  c1_main.1 gNoTrigger (by rfl)

/-! ## Claim C2 -/

/-- C2 (code bug): the source's comment documents support for all of
`==, !=, >, <, >=, <=`, but the regex alternation `(==|!=|>|<|>=|<=)` tries
`>` before `>=`, so on the condition `"x >= 5"` the match captures operator
`>` with literal `"= 5"`; with state field `x = 5` the resulting comparison
`5 > "= 5"` raises `TypeError` instead of writing `5 >= 5 = True`. -/
theorem c2_main :
    condParse "x >= 5" = some ("x", ">", "= 5") ∧
    evalSimpleCondition "x >= 5" [("data", Value.dict [("x", Value.int 5)])]
      = .error
        "\x27>\x27 not supported between instances of \x27int\x27 and \x27str\x27" ∧
    conditionalHandlerExecute
        { id := "c1", type := "conditional",
          data := { condition := some "x >= 5" } }
        [("data", Value.dict [("x", Value.int 5)])]
      = .error
        "\x27>\x27 not supported between instances of \x27int\x27 and \x27str\x27" := by
  exact ⟨rfl, rfl, rfl⟩

/-! ## Claim C6 -/

/-- C6 counterexample: the claim quantifies over *every* graph whose
declared schema already contains all inferable fields — which vacuously
includes the empty schema with a trigger-only node list — yet there the
resolved schema is the substituted backward-compatibility default, not the
declared (empty) schema. -/
theorem c6_counterexample :
    resolveStateSchema [] [trigNode] = defaultStateSchema ∧
    defaultStateSchema ≠ ([] : List StateFieldD) := by
  exact ⟨rfl, by decide⟩

/-- C6 (amended): for every graph whose declared `state_schema` is
*non-empty* and already contains every field inference would produce (the
sanitized explicit `output_key` of each node, and the sanitized defaults
`{id}_df` / `{id}_output` for `dataset` / `llm` nodes without one), schema
resolution returns the declared schema unchanged, appending nothing. -/
theorem c6_main (declared : List StateFieldD) (nodes : List NodeD)
    (hne : declared ≠ [])
    (hall : ∀ n ∈ nodes, ∀ k, contribKey? n = some k →
      k ∈ declared.map (fun f => f.name)) :
    resolveStateSchema declared nodes = declared := by
  unfold resolveStateSchema
  rw [if_neg (by simpa [List.isEmpty_iff] using hne)]
  unfold inferSchema
  rw [foldl_inferStep_eq_of_mem nodes (declared, declared.map (fun f => f.name)) hall]

/-- C6 witness: a declared schema already holding the llm node's default
output field `llm1_output` resolves to itself. -/
theorem c6_witness :
    resolveStateSchema [{ name := "llm1_output", type := "str" }]
        [{ id := "llm1", type := "llm" }]
      = [{ name := "llm1_output", type := "str" }] := by
  apply c6_main
  · decide
  · intro n hn k hk
    rw [List.mem_singleton] at hn
    subst hn
    rw [show contribKey? { id := "llm1", type := "llm" }
        = some "llm1_output" from rfl] at hk
    rw [Option.some.injEq] at hk
    subst hk
    simp

/-! ## Claim C7 -/

/-- C7 counterexample: the spec says sanitization *strips* (removes)
characters outside `[A-Za-z0-9_]`, but the source replaces each of them
with `_`: on `"a-b"` the code yields `"a_b"`, not the `"ab"` the claim
describes. -/
theorem c7_counterexample :
    sanitizeIdentifier "a-b" = "a_b" ∧ specStripSanitize "a-b" = "ab" ∧
    sanitizeIdentifier "a-b" ≠ specStripSanitize "a-b" := by
  exact ⟨rfl, rfl, by decide⟩

/-- C7 (amended): for every non-empty name, sanitization *replaces* each
character outside `[A-Za-z0-9_]` with `_` (prefixing `_` when the replaced
string starts with a digit), and the result is a safe identifier: all its
characters are in `[A-Za-z0-9_]` and it does not start with a digit. -/
theorem c7_main (name : String) (hne : name ≠ "") :
    ((sanitizeIdentifier name).data
        = name.data.map (fun c => if wordChar c then c else '_') ∨
     (sanitizeIdentifier name).data
        = '_' :: name.data.map (fun c => if wordChar c then c else '_')) ∧
    (∀ c ∈ (sanitizeIdentifier name).data, wordChar c = true) ∧
    ((sanitizeIdentifier name).data.head?.any Char.isDigit = false) := by
  have hmap : ∀ c ∈ name.data.map (fun c => if wordChar c then c else '_'),
      wordChar c = true := by
    intro c hc
    rcases List.mem_map.1 hc with ⟨a, -, rfl⟩
    by_cases hw : wordChar a
    · simpa [hw]
    · simp only [hw, if_false]
      rfl
  have hdn : name.data ≠ [] := by
    intro h0
    apply hne
    cases name with
    | mk d =>
      simp only [] at h0
      subst h0
      rfl
  have hne' : name.data.map (fun c => if wordChar c then c else '_') ≠ [] := by
    rw [ne_eq, List.map_eq_nil_iff]
    exact hdn
  obtain ⟨c, t, hm⟩ := List.exists_cons_of_ne_nil hne'
  have hmap' : ∀ x ∈ c :: t, wordChar x = true := hm ▸ hmap
  simp only [sanitizeIdentifier, hm]
  by_cases hdig : c.isDigit
  · rw [if_pos hdig]
    refine ⟨Or.inr rfl, ?_, rfl⟩
    intro x hx
    have hx' : x ∈ '_' :: c :: t := hx
    rcases List.mem_cons.1 hx' with rfl | hx2
    · rfl
    · exact hmap' x hx2
  · rw [if_neg hdig]
    refine ⟨Or.inl rfl, fun x hx => hmap' x hx, ?_⟩
    rw [Bool.not_eq_true] at hdig
    simp [hdig]

/-- C7 witness: the amended theorem at the concrete name `"2x-y!"`
(sanitized to `"_2x_y_"`). -/
theorem c7_witness :
    ((sanitizeIdentifier "2x-y!").data.head?.any Char.isDigit = false) :=
  (c7_main "2x-y!" (by decide)).2.2

/-! ## Claim C8 -/

/-- C8 counterexample: the claim says unknown node types get a passthrough
handler in the engine dispatch too, but `NodeHandlerFactory.get_handler`
raises `ValueError` for the unknown type `"custom"` (and even for
`"dataset"`, which has no registered engine handler at all). -/
theorem c8_counterexample :
    getHandler "custom" = .error "Unsupported node type: custom" ∧
    getHandler "dataset" = .error "Unsupported node type: dataset" := by
  exact ⟨rfl, rfl⟩

/-- C8 (amended): in *code generation* a node of unknown type falls through
to the generic passthrough generator, whose generated body returns the empty
partial-state update (no state mutation); in the *engine's* handler
dispatch, however, every type outside the factory's five registered kinds
(`trigger, llm, api, conditional, output` — `dataset` is not registered)
raises `ValueError("Unsupported node type: ...")` instead. -/
theorem c8_main :
    (∀ n : NodeD,
      n.type ∉ ["llm", "api", "trigger", "output", "conditional", "dataset"] →
      genNodeFunction n = genGenericNode n) ∧
    (∀ st : Data, genericNodeSem st = .ok []) ∧
    (∀ t : String, t ∉ handlersMap.map Prod.fst →
      getHandler t = .error ("Unsupported node type: " ++ t)) := by
  refine ⟨?_, fun _ => rfl, ?_⟩
  · intro n hn
    simp only [List.mem_cons, List.not_mem_nil, or_false, not_or] at hn
    obtain ⟨h1, h2, h3, h4, h5, h6⟩ := hn
    unfold genNodeFunction
    rw [if_neg h1, if_neg h2, if_neg h3, if_neg h4, if_neg h5, if_neg h6]
  · intro t ht
    have hfind : handlersMap.find? (fun p => p.1 = t) = Option.none := by
      rw [List.find?_eq_none]
      intro p hp
      simp only [decide_eq_true_eq]
      intro hEq
      exact ht (List.mem_map.2 ⟨p, hp, hEq⟩)
    unfold getHandler
    rw [hfind]
    rfl

/-- C8 witness: the amended theorem at the unknown type `"custom"`. -/
theorem c8_witness :
    genNodeFunction { id := "n1", type := "custom" }
      = genGenericNode { id := "n1", type := "custom" } :=
  c8_main.1 { id := "n1", type := "custom" } (by decide)

/-! ## Claim C10 -/

/-- C10: `_normalize_provider` lowercases and strips the provider string and
defaults every unrecognised result to `"openai"`, so the generated LLM node
code for such a provider takes the `ChatOpenAI` branch of its dispatch
rather than failing. -/
theorem c10_main (p : String)
    (hp : pyStripStr (pyLower p) ∉ providerMap.map Prod.fst) :
    normalizeProvider p = "openai" ∧
    generatedLLMDispatch (normalizeProvider p) = .ok .chatOpenAI := by
  have hnorm : normalizeProvider p = "openai" := by
    unfold normalizeProvider lookupS
    have hfind : providerMap.find? (fun q => q.1 = pyStripStr (pyLower p))
        = Option.none := by
      rw [List.find?_eq_none]
      intro q hq
      simp only [decide_eq_true_eq]
      intro hEq
      exact hp (hEq ▸ List.mem_map.2 ⟨q, hq, rfl⟩)
    rw [hfind]
    rfl
  exact ⟨hnorm, by rw [hnorm]; rfl⟩

/-- C10 witness: the misspelled provider `"GPT-5-Mega "` normalizes to
`"openai"` and the generated code dispatches to `ChatOpenAI`. -/
theorem c10_witness :
    normalizeProvider "GPT-5-Mega " = "openai" ∧
    generatedLLMDispatch (normalizeProvider "GPT-5-Mega ") = .ok .chatOpenAI :=
  c10_main "GPT-5-Mega " (by decide)

/-! ## Claim C3 -/

/-- C3 counterexample: the claim promises a *non-empty* `error_message`
whenever some handler raises, but `execute` stores `str(e)`, and an
exception stringifying to the empty string (e.g. `ValueError()`) leaves
`error_message = ""`: here node `a1`'s handler raises with message `""` and
the execution record ends `Failed` with an **empty** error message. -/
theorem c3_counterexample :
    (executeModel gLinear (oracleFailA "") []).status = .failed ∧
    (executeModel gLinear (oracleFailA "") []).errorMessage = some "" := by
  exact ⟨rfl, rfl⟩

/-- C3 (amended): for every execution aborted because some node's handler
raised (with message `msg`), the execution record ends `Failed` with
`completed_at` set and `error_message = str(e) = msg` — hence non-empty
whenever the exception's message is non-empty — and no node after the
failing one is invoked: the failing node is the last entry of the
invocation log. -/
theorem c3_main (g : GraphD) (h : HandlerOracle) (input : Data)
    (n msg : String)
    (hrun : (executeModel g h input).err = some (.handlerErr n msg)) :
    (executeModel g h input).status = .failed ∧
    (executeModel g h input).completedAt = true ∧
    (executeModel g h input).errorMessage = some msg ∧
    (msg ≠ "" → (executeModel g h input).errorMessage ≠ some "") ∧
    (executeModel g h input).invoked.getLast? = some n := by
  obtain ⟨-, hspec⟩ := executeModel_spec g h input
  obtain ⟨heq, hlast⟩ := hspec n msg hrun
  have hmsg : (executeModel g h input).errorMessage = some msg := by
    rw [heq]
    rfl
  refine ⟨by rw [heq]; rfl, by rw [heq]; rfl, hmsg, ?_, hlast⟩
  intro hne hcontra
  rw [hmsg, Option.some.injEq] at hcontra
  exact hne hcontra

/-- C3 witness: in the linear graph `t1 → a1` with `a1`'s handler raising
`"boom"`, the record is `Failed`, `completed_at` is set, the message is
`"boom"` and the invocation log ends at `a1`. -/
theorem c3_witness :
    (executeModel gLinear (oracleFailA "boom") []).status = .failed ∧
    (executeModel gLinear (oracleFailA "boom") []).completedAt = true ∧
    (executeModel gLinear (oracleFailA "boom") []).errorMessage = some "boom" ∧
    ("boom" ≠ "" →
      (executeModel gLinear (oracleFailA "boom") []).errorMessage ≠ some "") ∧
    (executeModel gLinear (oracleFailA "boom") []).invoked.getLast? = some "a1" :=
  c3_main gLinear (oracleFailA "boom") [] "a1" "boom" (by rfl)

/-! ## Claim C4 -/

/-- C4: for every finite graph (cycles and self-loops included) and every
handler behaviour, the executor's traversal invokes each node at most once
(its invocation log has no duplicates, since an id in the `visited` set is
never re-entered) and terminates — `executorTerminates` holds because the
traversal's fuel, one more than its well-founded measure, can never run
out; concretely, the self-loop graph `t1 → a1 → a1` visits `a1` exactly
once and completes. -/
theorem c4_main :
    (∀ (g : GraphD) (h : HandlerOracle) (input : Data),
      (executeModel g h input).invoked.Nodup ∧
      executorTerminates g h input = true) ∧
    (executeModel gSelfLoop oracleOk []).invoked = ["t1", "a1"] ∧
    (executeModel gSelfLoop oracleOk []).status = .completed := by
  refine ⟨?_, rfl, rfl⟩
  intro g h input
  refine ⟨(executeModel_spec g h input).1, ?_⟩
  unfold executorTerminates
  cases ht : triggerOf g.nodes with
  | none => rfl
  | some entry =>
    exact dfsF_fuel_sufficient g h _ _ _ _ _ (Nat.lt_succ_self _)

/-! ## Claim C9 -/

/-- The scan of the empty input produces the empty output. -/
theorem pySubDoubleBrace_nil (repl : String → String) :
    pySubDoubleBrace repl [] = [] := by
  rw [pySubDoubleBrace.eq_def]

/-- Formatting the empty prompt yields the empty string. -/
theorem formatPromptHandler_nil (state : Data) :
    formatPromptHandler "" state = "" := by
  unfold formatPromptHandler
  rw [show ("" : String).data = [] from rfl, pySubDoubleBrace_nil]

/-- The placeholder substitution of the prompt formatter around one
well-formed `{{w}}` placeholder, with a brace-free prefix. -/
theorem formatPromptHandler_split (pre w post : String) (state : Data)
    (hpre : ∀ c ∈ pre.data, c ≠ '{')
    (hw : w.data ≠ []) (hall : ∀ c ∈ w.data, wordChar c = true) :
    formatPromptHandler (pre ++ "\x7b\x7b" ++ w ++ "\x7d\x7d" ++ post) state
      = pre ++ (match alookup (stateData state) w with
          | some v => pyStr v
          | Option.none => "\x7b " ++ w ++ " \x7d")
        ++ formatPromptHandler post state := by
  unfold formatPromptHandler
  have hdata : (pre ++ "\x7b\x7b" ++ w ++ "\x7d\x7d" ++ post).data
      = pre.data ++ ('{' :: '{' :: (w.data ++ ('}' :: '}' :: post.data))) := by
    simp [String.data_append]
  rw [hdata]
  rw [pySubDoubleBrace_no_brace _ pre.data _ hpre]
  rw [pySubDoubleBrace_placeholder _ w.data post.data hw hall]
  have hweta : (⟨w.data⟩ : String) = w := by cases w; rfl
  rw [hweta]
  apply String.ext
  simp [String.data_append, List.append_assoc]

/-- C9 counterexample: the claim says an unresolved placeholder is left
*verbatim*, but the handler's fallback `f"{{ {var_name} }}"` renders its
doubled braces to single ones: formatting `"{{foo}}"` against an empty data
dict yields `"{ foo }"`, single braces with spaces, not the original
text. -/
theorem c9_counterexample :
    formatPromptHandler "\x7b\x7bfoo\x7d\x7d" [("data", Value.dict [])]
      = "\x7b foo \x7d" ∧
    formatPromptHandler "\x7b\x7bfoo\x7d\x7d" [("data", Value.dict [])]
      ≠ "\x7b\x7bfoo\x7d\x7d" := by
  have h := formatPromptHandler_split "" "foo" "" [("data", Value.dict [])]
    (by decide) (by decide) (by decide)
  rw [show ("" : String) ++ "\x7b\x7b" ++ "foo" ++ "\x7d\x7d" ++ "" = "\x7b\x7bfoo\x7d\x7d" from rfl] at h
  rw [show alookup (stateData [("data", Value.dict [])]) "foo" = Option.none from rfl] at h
  constructor
  · rw [h, formatPromptHandler_nil]
    rfl
  · rw [h, formatPromptHandler_nil]
    decide

/-- C9 (amended): `{{field}}` placeholders whose field is present in the
state data are substituted with the value's `str()` form; a placeholder
whose field is absent is rewritten to `"{ field }"` — a *single* brace on
each side with spaces around the name, the render of the fallback f-string
`f"{{ {var_name} }}"` — rather than being left byte-for-byte verbatim (and
rather than raising). -/
theorem c9_main (pre w post : String) (state : Data)
    (hpre : ∀ c ∈ pre.data, c ≠ '{')
    (hw : w.data ≠ []) (hall : ∀ c ∈ w.data, wordChar c = true) :
    (∀ v, alookup (stateData state) w = some v →
      formatPromptHandler (pre ++ "\x7b\x7b" ++ w ++ "\x7d\x7d" ++ post) state
        = pre ++ pyStr v ++ formatPromptHandler post state) ∧
    (alookup (stateData state) w = Option.none →
      formatPromptHandler (pre ++ "\x7b\x7b" ++ w ++ "\x7d\x7d" ++ post) state
        = pre ++ ("\x7b " ++ w ++ " \x7d")
          ++ formatPromptHandler post state) := by
  have h := formatPromptHandler_split pre w post state hpre hw hall
  constructor
  · intro v hv
    rw [hv] at h
    exact h
  · intro hv
    rw [hv] at h
    exact h

/-- C9 witness: the amended theorem at the concrete prompt
`"Hi {{name}}!"` with `name = "Bob"` in the state data. -/
theorem c9_witness :
    formatPromptHandler ("Hi " ++ "\x7b\x7b" ++ "name" ++ "\x7d\x7d" ++ "!")
        [("data", Value.dict [("name", Value.str "Bob")])]
      = "Hi " ++ pyStr (Value.str "Bob")
        ++ formatPromptHandler "!"
            [("data", Value.dict [("name", Value.str "Bob")])] :=
  (c9_main "Hi " "name" "!" [("data", Value.dict [("name", Value.str "Bob")])]
      (by decide) (by decide) (by decide)).1 (Value.str "Bob") rfl

/-! ## Claim C5 -/

theorem langGraphCompile_eq (g : GraphD) :
    langGraphCompile g =
      match validateL (resolveStateSchema g.state_schema g.nodes) g.nodes
          g.edges with
      | .error e => .error e
      | .ok _ =>
          .ok (compiledCode g,
            if g.state_schema.isEmpty then g
            else { g with
                    state_schema := resolveStateSchema g.state_schema g.nodes }) :=
  rfl

/-- With a non-empty declared schema, resolution is just inference. -/
theorem resolveStateSchema_of_ne_nil {declared : List StateFieldD}
    (nodes : List NodeD) (hne : declared ≠ []) :
    resolveStateSchema declared nodes = inferSchema declared nodes := by
  unfold resolveStateSchema
  rw [if_neg (by simpa [List.isEmpty_iff] using hne)]

/-- Resolving an already-resolved non-empty schema is a fixpoint. -/
theorem resolveStateSchema_fix {declared : List StateFieldD}
    (nodes : List NodeD) (hne : declared ≠ []) :
    resolveStateSchema (resolveStateSchema declared nodes) nodes
      = resolveStateSchema declared nodes := by
  rw [resolveStateSchema_of_ne_nil nodes hne,
    resolveStateSchema_of_ne_nil nodes (inferSchema_ne_nil nodes hne)]
  exact inferSchema_idem declared nodes

/-- C5: compilation is deterministic. Equal inputs give byte-identical
output; and since the only mutation `compile` performs is appending the
inferred fields to the caller's non-empty `state_schema` list in place,
even calling `compile` again on the graph object as the first call left it
returns the identical code string and leaves the graph unchanged (schema
inference is idempotent). -/
theorem c5_main :
    (∀ g1 g2 : GraphD, g1 = g2 → langGraphCompile g1 = langGraphCompile g2) ∧
    (∀ g : GraphD, (langGraphCompile g).bind (fun p => langGraphCompile p.2)
      = langGraphCompile g) := by
  constructor
  · intro g1 g2 h
    rw [h]
  · intro g
    cases hv : validateL (resolveStateSchema g.state_schema g.nodes) g.nodes
        g.edges with
    | error e =>
      rw [langGraphCompile_eq g, hv]
      rfl
    | ok w =>
      by_cases hs : g.state_schema.isEmpty
      · have hLg : langGraphCompile g = .ok (compiledCode g, g) := by
          rw [langGraphCompile_eq g, hv, if_pos hs]
        rw [hLg]
        exact hLg
      · have hne : g.state_schema ≠ [] := by
          simpa [List.isEmpty_iff] using hs
        have hLg : langGraphCompile g
            = .ok (compiledCode g,
                { g with
                    state_schema := resolveStateSchema g.state_schema g.nodes }) := by
          rw [langGraphCompile_eq g, hv, if_neg hs]
        rw [hLg]
        show langGraphCompile
            { g with state_schema := resolveStateSchema g.state_schema g.nodes }
          = .ok (compiledCode g,
              { g with state_schema := resolveStateSchema g.state_schema g.nodes })
        have hfix := resolveStateSchema_fix g.nodes hne
        have hS2 : resolveStateSchema
            ({ g with state_schema := resolveStateSchema g.state_schema g.nodes }).state_schema
            ({ g with state_schema := resolveStateSchema g.state_schema g.nodes }).nodes
            = resolveStateSchema g.state_schema g.nodes := hfix
        have hsne : (resolveStateSchema g.state_schema g.nodes).isEmpty = false := by
          have h1 : resolveStateSchema g.state_schema g.nodes ≠ [] := by
            rw [resolveStateSchema_of_ne_nil g.nodes hne]
            exact inferSchema_ne_nil g.nodes hne
          simpa [List.isEmpty_iff] using h1
        rw [langGraphCompile_eq]
        rw [hS2, hv]
        simp only [hsne, Bool.false_eq_true, if_false]
        unfold compiledCode
        rw [hS2]
        simp only [hsne]
        rw [show (g.state_schema.isEmpty) = false by
          simpa using hs]

/-- C5 witness: determinism instantiated at the linear example graph. -/
theorem c5_witness : langGraphCompile gLinear = langGraphCompile gLinear :=
  c5_main.1 gLinear gLinear rfl

end FlowAI
